import Mathlib

/-! Verification development for the savannah predator-prey simulation
    (src/savannah.py).  The simulation core is embedded shallowly: pure
    numeric helpers become Lean functions over `ℚ` (exact rational
    idealization of Python floats) or over `ℝ` where `math.sqrt` is
    involved; the mutable object graph of the model becomes an explicit
    `World` state threaded through the step functions, with the various
    sources of randomness (neighbor orderings, litter sizes, drawn
    lifespans, genders) turned into explicit parameters. -/

namespace Savannah

/-! ### User configurable constants (savannah.py lines 19-32) -/

/-- How much to advance age each tick. -/
def AGE_T : ℚ := 5 / 1000

/-- Regrow grass every 2 years. -/
def GRASS_REGROW : ℚ := 2

/-- Food consumed per tick. -/
def FOOD_PER_TICK : ℚ := 3 / 10

/-- Babies per Tiger pregnancy (center of the random litter size). -/
def BABIES_PER_TIGER_PREGS : ℚ := 2

/-- Babies per Prey pregnancy (center of the random litter size). -/
def BABIES_PER_PREY_PREGS : ℚ := 7 / 2

/-- Tiger lifespan center. -/
def LIFESPAN_TIGER : ℚ := 17

/-- Prey lifespan center. -/
def LIFESPAN_PREY : ℚ := 9

/-! ### get_speed (savannah.py lines 35-48) -/

/-- Given the age and max speed, compute current speed
    (translation of `get_speed`). -/
def get_speed (cur_age max_age max_speed : ℚ) : ℚ :=
  let x0 := cur_age / max_age
  let x := if x0 > 1 then 1 else x0
  let y :=
    if x < 1/2 then -(2 * x - 1) ^ 4 + 1
    else
      let x1 := x - 1/2
      (51/10) * x1 ^ 3 - (64/10) * x1 ^ 2 + (6/10) * x1 + 1
  let y1 := if y ≤ 1/10 then 1/10 else y
  y1 * max_speed

/-! ### get_distance (savannah.py lines 66-70) -/

/-- Distance between two points (translation of `get_distance`). -/
noncomputable def get_distance (pos1 pos2 : ℝ × ℝ) : ℝ :=
  Real.sqrt ((pos2.2 - pos1.2) ^ 2 + (pos2.1 - pos1.1) ^ 2)

/-! ### calc_move (savannah.py lines 307-325) -/

open scoped Classical in
/-- The delta computation of `calc_move` (lines 310-320): the signed step
    taken along each axis. -/
noncomputable def calc_delta (x_1 y_1 x_2 y_2 distance : ℝ) : ℝ × ℝ :=
  let delta_y := y_2 - y_1
  let delta_x := x_2 - x_1
  if delta_y ≠ 0 then
    let rt := delta_x / delta_y
    let dy := Real.sqrt (distance ^ 2 / (rt ^ 2 + 1)) * (if delta_y < 0 then -1 else 1)
    let dx := |rt * dy| * (if delta_x < 0 then -1 else 1)
    (dx, dy)
  else
    (distance * (if delta_x < 0 then -1 else 1), 0)

open scoped Classical in
/-- Move along a line from (x_1, y_1) towards (x_2, y_2) covering `distance`
    units (translation of `calc_move`, lines 307-325).  Returns the new
    position together with the applied deltas. -/
noncomputable def calc_move (x_1 y_1 x_2 y_2 distance : ℝ) : (ℝ × ℝ) × ℝ × ℝ :=
  let d := calc_delta x_1 y_1 x_2 y_2 distance
  if |d.1| > |x_2 - x_1| ∨ |d.2| > |y_2 - y_1| then
    ((x_2, y_2), d)
  else
    ((x_1 + d.1, y_1 + d.2), d)

/-! ### Out-of-bounds check in Animal.step (savannah.py line 212)

    The source guard is the Python chained comparison
    `0 > x > 80 or 0 > y > 80`, i.e. `(0 > x and x > 80) or (0 > y and y > 80)`. -/

/-- The out-of-bounds detection condition of `Animal.step` (line 212). -/
def oob_check (x y : ℝ) : Prop := (0 > x ∧ x > 80) ∨ (0 > y ∧ y > 80)

/-! ### Claim C2: speed curve boundary values -/

/-- C2 counterexample: evaluated at age 0 the speed function returns
    `0.1 * max_speed`, not `max_speed`, and at `age = max_age` it returns
    `0.3375 * max_speed`, not `0.1 * max_speed` (shown at `max_age = 1`,
    `max_speed = 1`). -/
theorem get_speed_boundary_cex :
    get_speed 0 1 1 = 1/10 ∧ get_speed 0 1 1 ≠ 1 ∧
    get_speed 1 1 1 = 27/80 ∧ get_speed 1 1 1 ≠ 1/10 := by
  refine ⟨?_, ?_, ?_, ?_⟩ <;> · unfold get_speed; norm_num

/-- C2 amended: for every `max_age > 0` and every `max_speed`, the speed at
    age 0 is `0.1 * max_speed` (the floor value) and the speed at
    `age = max_age` is `0.3375 * max_speed`. -/
theorem get_speed_boundary (max_age max_speed : ℚ) (h : 0 < max_age) :
    get_speed 0 max_age max_speed = (1/10) * max_speed ∧
    get_speed max_age max_age max_speed = (27/80) * max_speed := by
  constructor
  · unfold get_speed
    norm_num
  · unfold get_speed
    rw [div_self (ne_of_gt h)]
    norm_num

/-- C2 amended witness: the amended boundary values at `max_age = 9`,
    `max_speed = 2`. -/
theorem get_speed_boundary_witness :
    (0:ℚ) < 9 ∧ get_speed 0 9 2 = (1/10) * 2 ∧ get_speed 9 9 2 = (27/80) * 2 :=
  ⟨by norm_num, (get_speed_boundary 9 2 (by norm_num)).1,
    (get_speed_boundary 9 2 (by norm_num)).2⟩

/-! ### Geometry lemmas about calc_delta / calc_move -/

lemma calc_move_snd (x_1 y_1 x_2 y_2 distance : ℝ) :
    (calc_move x_1 y_1 x_2 y_2 distance).2 = calc_delta x_1 y_1 x_2 y_2 distance := by
  simp only [calc_move]
  split_ifs <;> rfl

lemma calc_delta_of_ne (x_1 y_1 x_2 y_2 distance : ℝ) (h : y_2 - y_1 ≠ 0) :
    calc_delta x_1 y_1 x_2 y_2 distance =
      (|((x_2 - x_1) / (y_2 - y_1)) *
          (Real.sqrt (distance ^ 2 / (((x_2 - x_1) / (y_2 - y_1)) ^ 2 + 1)) *
            (if y_2 - y_1 < 0 then -1 else 1))| * (if x_2 - x_1 < 0 then -1 else 1),
        Real.sqrt (distance ^ 2 / (((x_2 - x_1) / (y_2 - y_1)) ^ 2 + 1)) *
          (if y_2 - y_1 < 0 then -1 else 1)) := by
  unfold calc_delta
  rw [if_pos h]

lemma calc_delta_of_eq (x_1 y_1 x_2 y_2 distance : ℝ) (h : y_2 - y_1 = 0) :
    calc_delta x_1 y_1 x_2 y_2 distance =
      (distance * (if x_2 - x_1 < 0 then -1 else 1), 0) := by
  unfold calc_delta
  rw [if_neg (by simpa using h)]

/-- In the square-root branch the horizontal delta equals `rt * dy`:
    the absolute value together with the sign factor reconstructs exactly
    the slope-proportional step. -/
lemma calc_delta_fst_eq (x_1 y_1 x_2 y_2 distance : ℝ) (h : y_2 - y_1 ≠ 0) :
    (calc_delta x_1 y_1 x_2 y_2 distance).1 =
      ((x_2 - x_1) / (y_2 - y_1)) * (calc_delta x_1 y_1 x_2 y_2 distance).2 := by
  rw [calc_delta_of_ne x_1 y_1 x_2 y_2 distance h]
  set rt : ℝ := (x_2 - x_1) / (y_2 - y_1) with hrt
  set s : ℝ := Real.sqrt (distance ^ 2 / (rt ^ 2 + 1)) with hs
  have hs0 : 0 ≤ s := Real.sqrt_nonneg _
  rcases lt_or_le (y_2 - y_1) 0 with hy | hy
  · rw [if_pos hy]
    rcases lt_or_le (x_2 - x_1) 0 with hx | hx
    · rw [if_pos hx]
      have hrt0 : 0 ≤ rt := by
        rw [hrt]
        exact div_nonneg_iff.mpr (Or.inr ⟨hx.le, hy.le⟩)
      have hsign : rt * (s * (-1)) ≤ 0 := by nlinarith
      rw [abs_of_nonpos hsign]
      ring
    · rw [if_neg (not_lt.mpr hx)]
      have hrt0 : rt ≤ 0 := by
        rw [hrt]
        exact div_nonpos_iff.mpr (Or.inl ⟨hx, hy.le⟩)
      have hsign : 0 ≤ rt * (s * (-1)) := by nlinarith
      rw [abs_of_nonneg hsign]
      ring
  · rw [if_neg (not_lt.mpr hy)]
    rcases lt_or_le (x_2 - x_1) 0 with hx | hx
    · rw [if_pos hx]
      have hrt0 : rt ≤ 0 := by
        rw [hrt]
        exact div_nonpos_iff.mpr (Or.inr ⟨hx.le, hy⟩)
      have hsign : rt * (s * 1) ≤ 0 := by nlinarith
      rw [abs_of_nonpos hsign]
      ring
    · rw [if_neg (not_lt.mpr hx)]
      have hrt0 : 0 ≤ rt := by
        rw [hrt]
        exact div_nonneg hx hy
      have hsign : 0 ≤ rt * (s * 1) := by nlinarith
      rw [abs_of_nonneg hsign]
      ring

lemma sq_step_aux (rt d c : ℝ) (hc : c ^ 2 = 1) :
    (rt * (Real.sqrt (d ^ 2 / (rt ^ 2 + 1)) * c)) ^ 2 +
      (Real.sqrt (d ^ 2 / (rt ^ 2 + 1)) * c) ^ 2 = d ^ 2 := by
  have hpos : (0:ℝ) < rt ^ 2 + 1 := by positivity
  have harg : (0:ℝ) ≤ d ^ 2 / (rt ^ 2 + 1) := by positivity
  have hsq : Real.sqrt (d ^ 2 / (rt ^ 2 + 1)) ^ 2 = d ^ 2 / (rt ^ 2 + 1) :=
    Real.sq_sqrt harg
  have hrw : (rt * (Real.sqrt (d ^ 2 / (rt ^ 2 + 1)) * c)) ^ 2 +
      (Real.sqrt (d ^ 2 / (rt ^ 2 + 1)) * c) ^ 2 =
      (rt ^ 2 + 1) * Real.sqrt (d ^ 2 / (rt ^ 2 + 1)) ^ 2 * c ^ 2 := by ring
  rw [hrw, hsq, hc, mul_one, mul_comm, div_mul_cancel₀ _ (ne_of_gt hpos)]

/-- The step taken by `calc_move` has length exactly `distance` (squared). -/
lemma calc_delta_sq (x_1 y_1 x_2 y_2 distance : ℝ) :
    (calc_delta x_1 y_1 x_2 y_2 distance).1 ^ 2 +
      (calc_delta x_1 y_1 x_2 y_2 distance).2 ^ 2 = distance ^ 2 := by
  by_cases h : y_2 - y_1 = 0
  · rw [calc_delta_of_eq x_1 y_1 x_2 y_2 distance h]
    split_ifs <;> · dsimp only; ring
  · rw [calc_delta_fst_eq x_1 y_1 x_2 y_2 distance h,
      calc_delta_of_ne x_1 y_1 x_2 y_2 distance h]
    dsimp only
    split_ifs
    · exact sq_step_aux _ distance (-1) (by norm_num)
    · exact sq_step_aux _ distance 1 (by norm_num)

/-- The step is collinear with the segment from the current position to the
    target. -/
lemma calc_delta_collinear (x_1 y_1 x_2 y_2 distance : ℝ) :
    (calc_delta x_1 y_1 x_2 y_2 distance).1 * (y_2 - y_1) =
      (calc_delta x_1 y_1 x_2 y_2 distance).2 * (x_2 - x_1) := by
  by_cases h : y_2 - y_1 = 0
  · rw [calc_delta_of_eq x_1 y_1 x_2 y_2 distance h, h]
    dsimp only
    ring
  · rw [calc_delta_fst_eq x_1 y_1 x_2 y_2 distance h]
    field_simp
    ring

/-- The step points towards the target along each axis. -/
lemma calc_delta_dir (x_1 y_1 x_2 y_2 distance : ℝ) (hd : 0 ≤ distance) :
    0 ≤ (calc_delta x_1 y_1 x_2 y_2 distance).1 * (x_2 - x_1) ∧
    0 ≤ (calc_delta x_1 y_1 x_2 y_2 distance).2 * (y_2 - y_1) := by
  by_cases h : y_2 - y_1 = 0
  · rw [calc_delta_of_eq x_1 y_1 x_2 y_2 distance h, h]
    dsimp only
    refine ⟨?_, by simp⟩
    split_ifs with hx
    · nlinarith
    · nlinarith [not_lt.mp hx]
  · rw [calc_delta_of_ne x_1 y_1 x_2 y_2 distance h]
    dsimp only
    set rt : ℝ := (x_2 - x_1) / (y_2 - y_1) with hrt
    set s : ℝ := Real.sqrt (distance ^ 2 / (rt ^ 2 + 1)) with hs
    have hs0 : 0 ≤ s := Real.sqrt_nonneg _
    constructor
    · split_ifs with hy hx hx
      · nlinarith [abs_nonneg (rt * (s * (-1:ℝ)))]
      · nlinarith [abs_nonneg (rt * (s * (-1:ℝ))), not_lt.mp hx]
      · nlinarith [abs_nonneg (rt * (s * (1:ℝ)))]
      · nlinarith [abs_nonneg (rt * (s * (1:ℝ))), not_lt.mp hx]
    · split_ifs with hy
      · nlinarith
      · nlinarith [not_lt.mp hy]

lemma calc_move_fst_of_guard (x_1 y_1 x_2 y_2 distance : ℝ)
    (hg : |(calc_delta x_1 y_1 x_2 y_2 distance).1| > |x_2 - x_1| ∨
      |(calc_delta x_1 y_1 x_2 y_2 distance).2| > |y_2 - y_1|) :
    (calc_move x_1 y_1 x_2 y_2 distance).1 = (x_2, y_2) := by
  simp only [calc_move]
  rw [if_pos hg]

lemma calc_move_fst_of_not_guard (x_1 y_1 x_2 y_2 distance : ℝ)
    (hg : ¬ (|(calc_delta x_1 y_1 x_2 y_2 distance).1| > |x_2 - x_1| ∨
      |(calc_delta x_1 y_1 x_2 y_2 distance).2| > |y_2 - y_1|)) :
    (calc_move x_1 y_1 x_2 y_2 distance).1 =
      (x_1 + (calc_delta x_1 y_1 x_2 y_2 distance).1,
        y_1 + (calc_delta x_1 y_1 x_2 y_2 distance).2) := by
  simp only [calc_move]
  rw [if_neg hg]

/-- A point moved by `t` along an axis stays between the endpoints when the
    step does not exceed the remaining span and points in its direction. -/
lemma add_between (a b t lo hi : ℝ) (h1 : |t| ≤ |b - a|) (h2 : 0 ≤ t * (b - a))
    (ha1 : lo ≤ a) (ha2 : a ≤ hi) (hb1 : lo ≤ b) (hb2 : b ≤ hi) :
    lo ≤ a + t ∧ a + t ≤ hi := by
  rcases le_or_lt 0 t with ht | ht
  · refine ⟨by linarith, ?_⟩
    rcases le_or_lt a b with hab | hab
    · have h1' : t ≤ b - a := by
        rw [abs_of_nonneg ht] at h1
        rwa [abs_of_nonneg (by linarith : (0:ℝ) ≤ b - a)] at h1
      linarith
    · have ht0 : t = 0 := by nlinarith
      rw [ht0]
      linarith
  · refine ⟨?_, by linarith⟩
    have hba : b ≤ a := by nlinarith
    have h1' : -t ≤ a - b := by
      rw [abs_of_neg ht] at h1
      rwa [abs_of_nonpos (by linarith : b - a ≤ 0), neg_sub] at h1
    linarith

/-! ### Claim C6: movement exactness -/

/-- C6: `calc_move` moves by exactly `distance` along the straight line to
    the target (the squared deltas sum to `distance ^ 2`, the step is
    collinear with the segment and points toward the target), unless that
    step would overshoot along an axis, in which case the result is exactly
    the target position; in particular `calc_move 0 0 10 0 5` yields `(5, 0)`
    and `calc_move 0 0 3 0 5` yields exactly `(3, 0)`. -/
theorem calc_move_exact :
    ((calc_move 0 0 10 0 5).1 = (5, 0) ∧ (calc_move 0 0 3 0 5).1 = (3, 0)) ∧
    (∀ x_1 y_1 x_2 y_2 distance : ℝ,
      ((calc_move x_1 y_1 x_2 y_2 distance).2.1 ^ 2 +
          (calc_move x_1 y_1 x_2 y_2 distance).2.2 ^ 2 = distance ^ 2) ∧
      ((calc_move x_1 y_1 x_2 y_2 distance).2.1 * (y_2 - y_1) =
          (calc_move x_1 y_1 x_2 y_2 distance).2.2 * (x_2 - x_1)) ∧
      (0 ≤ distance →
        0 ≤ (calc_move x_1 y_1 x_2 y_2 distance).2.1 * (x_2 - x_1) ∧
        0 ≤ (calc_move x_1 y_1 x_2 y_2 distance).2.2 * (y_2 - y_1)) ∧
      ((|(calc_move x_1 y_1 x_2 y_2 distance).2.1| > |x_2 - x_1| ∨
          |(calc_move x_1 y_1 x_2 y_2 distance).2.2| > |y_2 - y_1|) →
        (calc_move x_1 y_1 x_2 y_2 distance).1 = (x_2, y_2)) ∧
      (¬ (|(calc_move x_1 y_1 x_2 y_2 distance).2.1| > |x_2 - x_1| ∨
          |(calc_move x_1 y_1 x_2 y_2 distance).2.2| > |y_2 - y_1|) →
        (calc_move x_1 y_1 x_2 y_2 distance).1 =
          (x_1 + (calc_move x_1 y_1 x_2 y_2 distance).2.1,
            y_1 + (calc_move x_1 y_1 x_2 y_2 distance).2.2))) := by
  constructor
  · constructor
    · norm_num [calc_move, calc_delta]
    · norm_num [calc_move, calc_delta]
  · intro x_1 y_1 x_2 y_2 distance
    rw [calc_move_snd]
    refine ⟨calc_delta_sq _ _ _ _ _, calc_delta_collinear _ _ _ _ _,
      fun hd => calc_delta_dir _ _ _ _ _ hd, ?_, ?_⟩
    · exact calc_move_fst_of_guard _ _ _ _ _
    · exact calc_move_fst_of_not_guard _ _ _ _ _

/-- C6 witness: the exactness statement applied at the concrete spec inputs,
    with the direction hypothesis discharged at `distance = 5`. -/
theorem calc_move_exact_witness :
    (0:ℝ) ≤ 5 ∧
    (0 ≤ (calc_move 0 0 10 0 5).2.1 * ((10:ℝ) - 0) ∧
      0 ≤ (calc_move 0 0 10 0 5).2.2 * ((0:ℝ) - 0)) ∧
    (calc_move 0 0 10 0 5).1 = (5, 0) :=
  ⟨by norm_num, (calc_move_exact.2 0 0 10 0 5).2.2.1 (by norm_num),
    calc_move_exact.1.1⟩

/-! ### Claim C1 (amended): positions stay in bounds for nonnegative speed -/

/-- C1 amended: whenever the current position and the target position lie in
    `[0, W] × [0, H]` and the travelled `distance` is nonnegative, the
    position computed by `calc_move` lies in `[0, W] × [0, H]` again.  (The
    unamended claim fails: a pregnant animal whose pregnancy drag exceeds its
    base speed moves with negative distance, see the counterexample.) -/
theorem calc_move_stays_in_bounds (W H x_1 y_1 x_2 y_2 distance : ℝ)
    (hd : 0 ≤ distance)
    (hx1 : 0 ≤ x_1) (hx1W : x_1 ≤ W) (hy1 : 0 ≤ y_1) (hy1H : y_1 ≤ H)
    (hx2 : 0 ≤ x_2) (hx2W : x_2 ≤ W) (hy2 : 0 ≤ y_2) (hy2H : y_2 ≤ H) :
    0 ≤ (calc_move x_1 y_1 x_2 y_2 distance).1.1 ∧
    (calc_move x_1 y_1 x_2 y_2 distance).1.1 ≤ W ∧
    0 ≤ (calc_move x_1 y_1 x_2 y_2 distance).1.2 ∧
    (calc_move x_1 y_1 x_2 y_2 distance).1.2 ≤ H := by
  by_cases hg : |(calc_delta x_1 y_1 x_2 y_2 distance).1| > |x_2 - x_1| ∨
      |(calc_delta x_1 y_1 x_2 y_2 distance).2| > |y_2 - y_1|
  · rw [calc_move_fst_of_guard x_1 y_1 x_2 y_2 distance hg]
    exact ⟨hx2, hx2W, hy2, hy2H⟩
  · rw [calc_move_fst_of_not_guard x_1 y_1 x_2 y_2 distance hg]
    push_neg at hg
    obtain ⟨hdir1, hdir2⟩ := calc_delta_dir x_1 y_1 x_2 y_2 distance hd
    obtain ⟨hA, hB⟩ := add_between x_1 x_2 (calc_delta x_1 y_1 x_2 y_2 distance).1
      0 W hg.1 hdir1 hx1 hx1W hx2 hx2W
    obtain ⟨hC, hD⟩ := add_between y_1 y_2 (calc_delta x_1 y_1 x_2 y_2 distance).2
      0 H hg.2 hdir2 hy1 hy1H hy2 hy2H
    exact ⟨hA, hB, hC, hD⟩

/-- C1 amended witness: bounds preservation at the concrete move
    `calc_move 0 0 3 0 5` inside the 80 × 80 world. -/
theorem calc_move_stays_in_bounds_witness :
    (0:ℝ) ≤ 5 ∧
    (0 ≤ (calc_move 0 0 3 0 5).1.1 ∧ (calc_move 0 0 3 0 5).1.1 ≤ 80 ∧
      0 ≤ (calc_move 0 0 3 0 5).1.2 ∧ (calc_move 0 0 3 0 5).1.2 ≤ 80) :=
  ⟨by norm_num,
    calc_move_stays_in_bounds 80 80 0 0 3 0 5 (by norm_num) (by norm_num)
      (by norm_num) (by norm_num) (by norm_num) (by norm_num) (by norm_num)
      (by norm_num) (by norm_num)⟩

/-! ### Entity model (savannah.py lines 73-304)

    Python objects become records; object references become uids looked up
    in a heap (`World.ents`).  A killed agent stays in the heap (as the
    Python object stays alive while referenced) but leaves the spatial
    index (`space`, with its `pos` set to `none`, as `remove_agent` does)
    and the scheduler (`schedule`). -/

/-- The physical content of a given cell (class Patch). -/
structure Patch where
  type : String
  grass : ℚ
  pos : Option (ℝ × ℝ)


/-- Base state for predators and prey (class Animal and the Tiger / Prey
    subclasses, which differ only in constants). -/
structure Animal where
  gender : ℕ
  pregs : ℚ
  target : Option ℕ
  age : ℚ
  pos : Option (ℝ × ℝ)
  alive : Bool
  food : ℚ
  type : String
  max_age : ℚ
  max_speed : ℚ
  speed : ℚ


/-- A heap entity: either a Patch or an Animal. -/
inductive Ent
  | patch (p : Patch)
  | animal (a : Animal)


/-- The duck-typed `.type` attribute used by `get_target`. -/
def Ent.type : Ent → String
  | .patch p => p.type
  | .animal a => a.type

/-- The duck-typed `.pos` attribute. -/
def Ent.pos : Ent → Option (ℝ × ℝ)
  | .patch p => p.pos
  | .animal a => a.pos

/-- Is this Animal ready to make babies? (Animal.can_mate, lines 135-140). -/
def can_mate (a : Animal) : Bool :=
  a.gender == 0 && a.pregs == 0 && (decide (8 > a.age) && decide (a.age > 1)) &&
    decide (a.food > 50)

/-- Change animal speed (Animal.set_speed, lines 142-146). -/
def Animal.set_speed (a : Animal) : Animal :=
  let speed := get_speed a.age a.max_age a.max_speed
  { a with speed := if a.pregs ≠ 0 then speed - a.pregs else speed }

/-- Tiger construction (class Tiger, lines 284-292); gender and the drawn
    `max_age` are the randomness, passed explicitly. -/
def Tiger_init (gender : ℕ) (age max_age : ℚ) : Animal :=
  Animal.set_speed
    { gender := gender, pregs := 0, target := none, age := age,
      pos := some (0, 0), alive := true, food := 50, type := "Tiger",
      max_age := max_age, max_speed := 2, speed := 0 }

/-- Prey construction (class Prey, lines 295-304). -/
def Prey_init (gender : ℕ) (age max_age : ℚ) : Animal :=
  Animal.set_speed
    { gender := gender, pregs := 0, target := none, age := age,
      pos := some (0, 0), alive := true, food := 10, type := "Prey",
      max_age := max_age, max_speed := 1, speed := 0 }

/-- The whole model state (class Prey_model, lines 328-417). -/
structure World where
  ents : List (ℕ × Ent)
  schedule : List ℕ
  space : List ℕ
  step_num : ℕ
  grass_ticks : List (ℕ × List ℕ)
  count : ℤ
  Prey_count : ℤ
  Tiger_count : ℤ
  last_uid : ℕ


/-- Heap lookup by uid. -/
def World.findEnt (w : World) (uid : ℕ) : Option Ent :=
  (w.ents.find? (fun e => e.1 == uid)).map (fun e => e.2)

/-- Heap lookup restricted to animals. -/
def World.findAnimal (w : World) (uid : ℕ) : Option Animal :=
  match w.findEnt uid with
  | some (.animal a) => some a
  | _ => none

/-- Heap lookup restricted to patches. -/
def World.findPatch (w : World) (uid : ℕ) : Option Patch :=
  match w.findEnt uid with
  | some (.patch p) => some p
  | _ => none

/-- Mutate the entity with the given uid (attribute assignment on the
    shared Python object). -/
def World.modifyEnt (w : World) (uid : ℕ) (f : Ent → Ent) : World :=
  { w with ents := w.ents.map (fun e => if e.1 = uid then (e.1, f e.2) else e) }

/-- Mutate an animal in the heap. -/
def World.modifyAnimal (w : World) (uid : ℕ) (f : Animal → Animal) : World :=
  w.modifyEnt uid (fun e =>
    match e with
    | .animal a => .animal (f a)
    | e => e)

/-- Mutate a patch in the heap. -/
def World.modifyPatch (w : World) (uid : ℕ) (f : Patch → Patch) : World :=
  w.modifyEnt uid (fun e =>
    match e with
    | .patch p => .patch (f p)
    | e => e)

/-! ### The regrowth calendar (`model.grass_ticks`, a Python dict) -/

/-- `grass_ticks.get(step, [])`. -/
def calGet (c : List (ℕ × List ℕ)) (k : ℕ) : List ℕ :=
  ((c.find? (fun e => e.1 == k)).map (fun e => e.2)).getD []

/-- `step in grass_ticks`. -/
def calHas (c : List (ℕ × List ℕ)) (k : ℕ) : Bool :=
  (c.find? (fun e => e.1 == k)).isSome

/-- `grass_ticks[step] = g`. -/
def calSet (c : List (ℕ × List ℕ)) (k : ℕ) (v : List ℕ) : List (ℕ × List ℕ) :=
  if calHas c k then c.map (fun e => if e.1 = k then (e.1, v) else e)
  else c ++ [(k, v)]

/-- `del grass_ticks[step]`. -/
def calDel (c : List (ℕ × List ℕ)) (k : ℕ) : List (ℕ × List ℕ) :=
  c.filter (fun e => ¬ e.1 = k)

/-- The fixed regrowth delay `GRASS_REGROW // AGE_T` (line 107), idealized
    over exact rationals. -/
def grass_regrow_ticks : ℕ := (⌊GRASS_REGROW / AGE_T⌋).toNat

/-- Patch.munch (lines 104-110): clear the grass and schedule regrowth. -/
def World.munch (w : World) (uid : ℕ) : World :=
  let w1 := w.modifyPatch uid (fun p => { p with grass := 0 })
  let step := w1.step_num + grass_regrow_ticks
  let g := calGet w1.grass_ticks step
  { w1 with grass_ticks := calSet w1.grass_ticks step (g ++ [uid]) }

/-- Patch.regrow (lines 89-91). -/
def World.regrow (w : World) (uid : ℕ) : World :=
  w.modifyPatch uid (fun p => { p with grass := 1 })

/-- Prey_model.kill (lines 358-368): update counts, remove the agent from
    the space (clearing its position, as mesa's `remove_agent` does) and
    from the scheduler.  The heap entry itself stays (the Python object
    survives while other agents hold references to it). -/
def World.kill (w : World) (uid : ℕ) : World :=
  let w1 :=
    match w.findAnimal uid with
    | some a =>
        if a.type = "Prey" then { w with Prey_count := w.Prey_count - 1 }
        else { w with Tiger_count := w.Tiger_count - 1 }
    | none => w
  let w2 := { w1 with count := w1.count - 1 }
  let w3 := w2.modifyAnimal uid (fun a => { a with pos := none })
  { w3 with
    space := w3.space.filter (fun u => ¬ u = uid),
    schedule := w3.schedule.filter (fun u => ¬ u = uid) }

/-- Prey_model.create_baby (lines 376-388): construct the animal, add it to
    the scheduler, place it in the space, and bump the counters.  The drawn
    gender and lifespan are explicit parameters. -/
def World.create_baby (w : World) (x y : ℝ) (age : ℚ) (type : String)
    (gender : ℕ) (max_age : ℚ) : World :=
  let uid := w.last_uid + 1
  let w1 := { w with last_uid := uid }
  let a := if type = "Prey" then Prey_init gender age max_age
           else Tiger_init gender age max_age
  let w2 := if type = "Prey" then { w1 with Prey_count := w1.Prey_count + 1 }
            else { w1 with Tiger_count := w1.Tiger_count + 1 }
  { w2 with
    ents := w2.ents ++ [(uid, Ent.animal { a with pos := some (x, y) })],
    schedule := w2.schedule ++ [uid],
    space := w2.space ++ [uid],
    count := w2.count + 1 }

/-- Patch construction and placement during world init (lines 76-87 and
    341-346); `rocky` is the random rockiness draw. -/
def World.create_patch (w : World) (x y : ℝ) (rocky : Bool) : World :=
  let uid := w.last_uid + 1
  let w1 := { w with last_uid := uid }
  let p : Patch :=
    if rocky then { type := "Rock", grass := 0, pos := some (x, y) }
    else { type := "Grass", grass := 1, pos := some (x, y) }
  { w1 with
    ents := w1.ents ++ [(uid, Ent.patch p)],
    space := w1.space ++ [uid] }

/-! ### Target selection (Animal.get_target, lines 219-281)

    The shuffled neighbor lists returned by `space.get_neighbors` are the
    randomness of target selection; they enter as explicit uid-list
    parameters (`cellmates` for the radius-3 scan, `food_cells` for the
    species feeding radius). -/

/-- First Grass patch with grass ≥ 1 in the list (lines 259-262). -/
def find_grass (w : World) : List ℕ → Option ℕ
  | [] => none
  | u :: rest =>
      match w.findEnt u with
      | some e =>
          if e.type = "Grass" then
            match e with
            | .patch p => if p.grass ≥ 1 then some u else find_grass w rest
            | .animal _ => find_grass w rest
          else find_grass w rest
      | none => find_grass w rest

/-- First Prey in the list (lines 266-268). -/
def find_prey (w : World) : List ℕ → Option ℕ
  | [] => none
  | u :: rest =>
      match w.findEnt u with
      | some e => if e.type = "Prey" then some u else find_prey w rest
      | none => find_prey w rest

/-- First same-species neighbor that can mate (lines 272-275). -/
def find_mate (w : World) (self_type : String) : List ℕ → Option ℕ
  | [] => none
  | u :: rest =>
      match w.findEnt u with
      | some (.animal a) =>
          if self_type = a.type ∧ can_mate a then some u
          else find_mate w self_type rest
      | _ => find_mate w self_type rest

/-- First Grass patch, grazed or not (wander, lines 278-281). -/
def find_wander (w : World) : List ℕ → Option ℕ
  | [] => none
  | u :: rest =>
      match w.findEnt u with
      | some (.patch p) => if p.type = "Grass" then some u else find_wander w rest
      | _ => find_wander w rest

/-- Outcome of the close-target interaction block (lines 230-252): either
    `get_target` returns right away, or control continues into the
    search rules with the (possibly dropped) target. -/
inductive CloseRes
  | ret (w : World) (r : Option ℕ)
  | keep (w : World) (t : Option ℕ)

open scoped Classical in
/-- The close-target interaction block of `get_target` (lines 227-252):
    graze, predate or mate when the current target is within distance 0.5. -/
noncomputable def close_interaction (w : World) (self_uid : ℕ) (self : Animal) :
    CloseRes :=
  match self.target with
  | none => .keep w none
  | some tuid =>
      match w.findEnt tuid with
      | none => .keep w (some tuid)
      | some t =>
          match t.pos, self.pos with
          | some tpos, some spos =>
              if get_distance spos tpos < 1/2 then
                match t with
                | .patch p =>
                    if self.type = "Prey" ∧ p.type = "Grass" ∧ self.food < 80 ∧
                        p.grass ≥ 1 then
                      let w1 := w.munch tuid
                      let w2 := w1.modifyAnimal self_uid
                        (fun a => { a with food := a.food + 10 })
                      .ret w2 none
                    else .keep w none
                | .animal ta =>
                    if self.type = "Tiger" ∧ ta.type = "Prey" ∧ self.food < 80 then
                      let w1 := w.modifyAnimal self_uid
                        (fun a => { a with food := a.food + (40 + ta.food / 4) })
                      let w2 := w1.modifyAnimal tuid
                        (fun a => { a with alive := false })
                      .ret w2 none
                    else if self.type = ta.type ∧ can_mate ta then
                      let w1 := w.modifyAnimal tuid
                        (fun a => { a with pregs := 1/10 })
                      .keep w1 (some tuid)
                    else .keep w none
              else .keep w (some tuid)
          | _, _ => .keep w (some tuid)

open scoped Classical in
/-- Animal.get_target (lines 219-281): run the close-target interaction,
    keep a surviving target, otherwise search for food, then a mate, then
    wander. -/
noncomputable def get_target (w : World) (self_uid : ℕ)
    (cellmates food_cells : List ℕ) : World × Option ℕ :=
  match w.findAnimal self_uid with
  | none => (w, none)
  | some self =>
      match close_interaction w self_uid self with
      | .ret w1 r => (w1, r)
      | .keep w1 tgt =>
          match tgt with
          | some t => (w1, some t)
          | none =>
              let r1 : Option ℕ :=
                if self.food < 80 then
                  if self.type = "Prey" then find_grass w1 food_cells
                  else find_prey w1 food_cells
                else none
              match r1 with
              | some u => (w1, some u)
              | none =>
                  let r2 : Option ℕ :=
                    if self.gender = 1 then find_mate w1 self.type cellmates
                    else none
                  match r2 with
                  | some u => (w1, some u)
                  | none => (w1, find_wander w1 cellmates)

/-! ### Animal.step (lines 165-217) -/

/-- Per-activation randomness of one animal step: the litter size drawn at
    a birth, the gender and lifespan drawn for each baby, and the shuffled
    neighbor lists used by `get_target`. -/
structure ARand where
  babies : ℕ
  genders : ℕ → ℕ
  max_ages : ℕ → ℚ
  cellmates : List ℕ
  food_cells : List ℕ

/-- The birth loop (lines 189-195): create `babies` offspring at the
    mother's position. -/
def births (w : World) (uid : ℕ) (r : ARand) : World :=
  match w.findAnimal uid with
  | none => w
  | some m =>
      match m.pos with
      | none => w
      | some p =>
          (List.range r.babies).foldl
            (fun w i => w.create_baby p.1 p.2 0 m.type (r.genders i) (r.max_ages i)) w

/-- mesa ContinuousSpace.out_of_bounds for the space the model builds at
    line 332, `ContinuousSpace(width+1, height+1, torus=False)` with
    width = height = 80 (line 537): the space accepts exactly the closed
    square `[0, 81] × [0, 81]`
    (`x < x_min or x > x_max or y < y_min or y > y_max`). -/
def space_out_of_bounds (p : ℝ × ℝ) : Prop :=
  p.1 < 0 ∨ p.1 > 81 ∨ p.2 < 0 ∨ p.2 > 81

open scoped Classical in
/-- The target-selection-and-movement tail of Animal.step (lines 201-217):
    refresh the target via `get_target`, drop it if it has no position,
    otherwise move towards it by `calc_move` and apply the new position with
    `space.move_agent` (line 216).  mesa's ContinuousSpace is built with
    `torus=False`, so `move_agent` (via `torus_adj`) raises on a position
    outside the space; `none` is that uncaught exception. -/
noncomputable def move_phase (w : World) (uid : ℕ) (cm fc : List ℕ) :
    Option World :=
  match get_target w uid cm fc with
  | (w4, tgt) =>
      let w5 := w4.modifyAnimal uid (fun a => { a with target := tgt })
      match tgt with
      | none => some w5
      | some tuid =>
          match w5.findEnt tuid with
          | none => some (w5.modifyAnimal uid (fun a => { a with target := none }))
          | some t =>
              match t.pos with
              | none =>
                  some (w5.modifyAnimal uid (fun a => { a with target := none }))
              | some tpos =>
                  match w5.findAnimal uid with
                  | none => some w5
                  | some a3 =>
                      match a3.pos with
                      | none => some w5
                      | some spos =>
                          let new_pos := (calc_move spos.1 spos.2
                            tpos.1 tpos.2 (a3.speed : ℝ)).1
                          if space_out_of_bounds new_pos then none
                          else some (w5.modifyAnimal uid
                            (fun a => { a with pos := some new_pos }))

open scoped Classical in
/-- Animal.step (lines 165-217): tombstone check, metabolism and aging,
    starvation and old-age death, pregnancy and birth, the periodic speed
    update, then target selection and movement.  `none` propagates the
    exception `move_agent` can raise during the movement. -/
noncomputable def animal_step (w : World) (uid : ℕ) (r : ARand) :
    Option World :=
  match w.findAnimal uid with
  | none => some w
  | some a0 =>
      if ¬ a0.alive then some (w.kill uid)
      else
        let w1 := w.modifyAnimal uid
          (fun a => { a with food := a.food - FOOD_PER_TICK, age := a.age + AGE_T })
        match w1.findAnimal uid with
        | none => some w1
        | some a1 =>
            if a1.food ≤ 0 then some (w1.kill uid)
            else if a1.age > a1.max_age then some (w1.kill uid)
            else
              let w2 :=
                if a1.pregs ≠ 0 then
                  let wp := w1.modifyAnimal uid (fun a =>
                    { a with food := a.food - FOOD_PER_TICK / 3,
                             pregs := a.pregs + AGE_T })
                  match wp.findAnimal uid with
                  | none => wp
                  | some a2 =>
                      if a2.pregs ≥ 1 then
                        let wb := wp.modifyAnimal uid (fun a => { a with pregs := 0 })
                        births wb uid r
                      else wp
                else w1
              let w3 :=
                if w2.step_num % 10 = 0 then w2.modifyAnimal uid Animal.set_speed
                else w2
              move_phase w3 uid r.cellmates r.food_cells

/-! ### Prey_model.step (lines 390-417) -/

/-- The regrowth phase of Prey_model.step (lines 396-399). -/
def do_regrow (w : World) : World :=
  if calHas w.grass_ticks w.step_num then
    let l := calGet w.grass_ticks w.step_num
    let w1 := l.foldl (fun w uid => w.regrow uid) w
    { w1 with grass_ticks := calDel w1.grass_ticks w1.step_num }
  else w

open scoped Classical in
/-- Prey_model.step (lines 390-417): advance the tick counter, regrow due
    grass, then activate the animals.  `order` is the shuffled snapshot of
    scheduler keys taken at tick start; an agent removed from the scheduler
    before its turn is skipped, as in mesa's RandomActivation. -/
noncomputable def model_step (w : World) (order : List ℕ) (rands : ℕ → ARand) :
    Option World :=
  let w1 := { w with step_num := w.step_num + 1 }
  let w2 := do_regrow w1
  order.foldl
    (fun ow uid => match ow with
      | none => none
      | some w =>
          if uid ∈ w.schedule then animal_step w uid (rands uid) else some w)
    (some w2)

/-! ### Prey_model construction (lines 328-356) -/

/-- The empty model state before any entity is created. -/
def empty_world : World :=
  { ents := [], schedule := [], space := [], step_num := 0, grass_ticks := [],
    count := 0, Prey_count := 0, Tiger_count := 0, last_uid := 0 }

/-- Prey_model.__init__ (lines 329-356): one patch per grid cell, then the
    initial populations at random positions with random ages; all random
    draws are explicit index-function parameters. -/
def Prey_model_init (Prey_count Tiger_count width height : ℕ)
    (rocky : ℕ → Bool)
    (ppos : ℕ → ℝ × ℝ) (page : ℕ → ℚ) (pgender : ℕ → ℕ) (pmax : ℕ → ℚ)
    (tpos : ℕ → ℝ × ℝ) (tage : ℕ → ℚ) (tgender : ℕ → ℕ) (tmax : ℕ → ℚ) :
    World :=
  let cells := (List.range width).flatMap
    (fun x => (List.range height).map (fun y => (x, y)))
  let w0 := cells.foldl
    (fun w c => w.create_patch (c.1 : ℝ) (c.2 : ℝ) (rocky w.last_uid)) empty_world
  let w1 := (List.range Prey_count).foldl
    (fun w i => w.create_baby (ppos i).1 (ppos i).2 (page i) "Prey"
      (pgender i) (pmax i)) w0
  (List.range Tiger_count).foldl
    (fun w i => w.create_baby (tpos i).1 (tpos i).2 (tage i) "Tiger"
      (tgender i) (tmax i)) w1

/-! ### The grass subsystem viewed on its own (for the regrowth claim):
    one tick consists of the regrowth phase followed by the munches the
    animals perform during the tick. -/

/-- One tick of the patch/calendar subsystem: advance the counter, regrow
    due patches, apply this tick's munches. -/
def grass_tick (w : World) (ms : List ℕ) : World :=
  let w1 := { w with step_num := w.step_num + 1 }
  let w2 := do_regrow w1
  ms.foldl (fun w uid => w.munch uid) w2

/-- Iterate the patch/calendar subsystem; `ms n` is the list of patches
    munched during the (n+1)-st tick. -/
def grass_run (w : World) (ms : ℕ → List ℕ) : ℕ → World
  | 0 => w
  | n + 1 => grass_tick (grass_run w ms n) (ms n)

/-! ### Heap lookup / update lemmas -/

lemma find?_map_modify {α : Type} (uid v : ℕ) (f : α → α) : ∀ (l : List (ℕ × α)),
    (((l.map (fun e => if e.1 = uid then (e.1, f e.2) else e)).find?
        (fun e => e.1 == v)).map (fun e => e.2)) =
      if v = uid then
        (((l.find? (fun e => e.1 == v)).map (fun e => e.2)).map f)
      else ((l.find? (fun e => e.1 == v)).map (fun e => e.2))
  | [] => by simp
  | e :: l => by
      simp only [List.map_cons]
      by_cases h1 : e.1 = v
      · have hb : (e.1 == v) = true := beq_iff_eq.mpr h1
        by_cases h2 : v = uid
        · have h1u : e.1 = uid := h1.trans h2
          rw [if_pos h2]
          rw [@List.find?_cons_of_pos (ℕ × α) (fun e => e.1 == v)
              (if e.1 = uid then (e.1, f e.2) else e)
              (l.map (fun e => if e.1 = uid then (e.1, f e.2) else e))
              (by rw [if_pos h1u]; exact hb),
            @List.find?_cons_of_pos (ℕ × α) (fun e => e.1 == v) e l hb]
          rw [if_pos h1u]
          rfl
        · have h1u : ¬ e.1 = uid := fun hc => h2 (h1.symm.trans hc)
          rw [if_neg h2]
          rw [@List.find?_cons_of_pos (ℕ × α) (fun e => e.1 == v)
              (if e.1 = uid then (e.1, f e.2) else e)
              (l.map (fun e => if e.1 = uid then (e.1, f e.2) else e))
              (by rw [if_neg h1u]; exact hb),
            @List.find?_cons_of_pos (ℕ × α) (fun e => e.1 == v) e l hb]
          rw [if_neg h1u]
      · have hb : ¬ ((e.1 == v) = true) := fun hc => h1 (beq_iff_eq.mp hc)
        have hmb : ¬ (((if e.1 = uid then (e.1, f e.2) else e).1 == v) = true) := by
          by_cases h2 : e.1 = uid
          · rw [if_pos h2]; exact hb
          · rw [if_neg h2]; exact hb
        rw [@List.find?_cons_of_neg (ℕ × α) (fun e => e.1 == v)
            (if e.1 = uid then (e.1, f e.2) else e)
            (l.map (fun e => if e.1 = uid then (e.1, f e.2) else e)) hmb,
          @List.find?_cons_of_neg (ℕ × α) (fun e => e.1 == v) e l hb]
        exact find?_map_modify uid v f l

lemma findEnt_modifyEnt (w : World) (uid v : ℕ) (f : Ent → Ent) :
    (w.modifyEnt uid f).findEnt v =
      if v = uid then (w.findEnt v).map f else w.findEnt v := by
  unfold World.modifyEnt World.findEnt
  exact find?_map_modify uid v f w.ents

lemma findEnt_modifyEnt_self (w : World) (uid : ℕ) (f : Ent → Ent) :
    (w.modifyEnt uid f).findEnt uid = (w.findEnt uid).map f := by
  rw [findEnt_modifyEnt, if_pos rfl]

lemma findEnt_modifyEnt_other (w : World) (uid v : ℕ) (f : Ent → Ent)
    (h : v ≠ uid) : (w.modifyEnt uid f).findEnt v = w.findEnt v := by
  rw [findEnt_modifyEnt, if_neg h]

lemma findAnimal_modifyAnimal_self (w : World) (uid : ℕ) (f : Animal → Animal) :
    (w.modifyAnimal uid f).findAnimal uid = (w.findAnimal uid).map f := by
  unfold World.modifyAnimal World.findAnimal
  rw [findEnt_modifyEnt_self]
  cases h : w.findEnt uid with
  | none => rfl
  | some e => cases e <;> rfl

lemma findAnimal_modifyAnimal_other (w : World) (uid v : ℕ) (f : Animal → Animal)
    (h : v ≠ uid) : (w.modifyAnimal uid f).findAnimal v = w.findAnimal v := by
  unfold World.modifyAnimal World.findAnimal
  rw [findEnt_modifyEnt_other _ _ _ _ h]

lemma findEnt_modifyAnimal_other (w : World) (uid v : ℕ) (f : Animal → Animal)
    (h : v ≠ uid) : (w.modifyAnimal uid f).findEnt v = w.findEnt v :=
  findEnt_modifyEnt_other _ _ _ _ h

lemma schedule_modifyEnt (w : World) (uid : ℕ) (f : Ent → Ent) :
    (w.modifyEnt uid f).schedule = w.schedule := rfl

lemma space_modifyEnt (w : World) (uid : ℕ) (f : Ent → Ent) :
    (w.modifyEnt uid f).space = w.space := rfl

/-! ### Branch semantics of the close-target interaction -/

lemma close_interaction_no_target (w : World) (self_uid : ℕ) (self : Animal)
    (ht : self.target = none) :
    close_interaction w self_uid self = .keep w none := by
  unfold close_interaction
  rw [ht]

lemma close_interaction_far (w : World) (self_uid tuid : ℕ) (self : Animal)
    (t : Ent) (spos tpos : ℝ × ℝ)
    (ht : self.target = some tuid) (hent : w.findEnt tuid = some t)
    (hspos : self.pos = some spos) (htpos : t.pos = some tpos)
    (hdist : ¬ get_distance spos tpos < 1/2) :
    close_interaction w self_uid self = .keep w (some tuid) := by
  unfold close_interaction
  rw [ht]
  dsimp only
  rw [hent]
  dsimp only
  rw [htpos, hspos]
  dsimp only
  rw [if_neg hdist]

lemma close_interaction_tiger_eats (w : World) (self_uid tuid : ℕ)
    (self ta : Animal) (spos tpos : ℝ × ℝ)
    (ht : self.target = some tuid)
    (hent : w.findEnt tuid = some (.animal ta))
    (hspos : self.pos = some spos) (htpos : ta.pos = some tpos)
    (hdist : get_distance spos tpos < 1/2)
    (htype : self.type = "Tiger") (httype : ta.type = "Prey")
    (hfood : self.food < 80) :
    close_interaction w self_uid self =
      .ret ((w.modifyAnimal self_uid
          (fun a => { a with food := a.food + (40 + ta.food / 4) })).modifyAnimal
            tuid (fun a => { a with alive := false })) none := by
  unfold close_interaction
  rw [ht]
  dsimp only
  rw [hent]
  dsimp only [Ent.pos]
  rw [htpos, hspos]
  dsimp only
  rw [if_pos hdist]
  rw [if_pos ⟨htype, httype, hfood⟩]

lemma close_interaction_mate (w : World) (self_uid tuid : ℕ)
    (self ta : Animal) (spos tpos : ℝ × ℝ)
    (ht : self.target = some tuid)
    (hent : w.findEnt tuid = some (.animal ta))
    (hspos : self.pos = some spos) (htpos : ta.pos = some tpos)
    (hdist : get_distance spos tpos < 1/2)
    (htype : ¬ (self.type = "Tiger" ∧ ta.type = "Prey" ∧ self.food < 80))
    (hmate : self.type = ta.type ∧ can_mate ta) :
    close_interaction w self_uid self =
      .keep (w.modifyAnimal tuid (fun a => { a with pregs := 1/10 }))
        (some tuid) := by
  unfold close_interaction
  rw [ht]
  dsimp only
  rw [hent]
  dsimp only [Ent.pos]
  rw [htpos, hspos]
  dsimp only
  rw [if_pos hdist]
  rw [if_neg htype, if_pos hmate]

/-! ### Branch semantics of get_target -/

lemma get_target_of_ret (w : World) (self_uid : ℕ) (cm fc : List ℕ)
    (self : Animal) (w1 : World) (r : Option ℕ)
    (hself : w.findAnimal self_uid = some self)
    (hci : close_interaction w self_uid self = .ret w1 r) :
    get_target w self_uid cm fc = (w1, r) := by
  unfold get_target
  rw [hself]
  dsimp only
  rw [hci]

lemma get_target_of_keep_some (w : World) (self_uid : ℕ) (cm fc : List ℕ)
    (self : Animal) (w1 : World) (t : ℕ)
    (hself : w.findAnimal self_uid = some self)
    (hci : close_interaction w self_uid self = .keep w1 (some t)) :
    get_target w self_uid cm fc = (w1, some t) := by
  unfold get_target
  rw [hself]
  dsimp only
  rw [hci]

lemma get_target_of_keep_none (w : World) (self_uid : ℕ) (cm fc : List ℕ)
    (self : Animal) (w1 : World)
    (hself : w.findAnimal self_uid = some self)
    (hci : close_interaction w self_uid self = .keep w1 none) :
    get_target w self_uid cm fc =
      (w1,
        match (if self.food < 80 then
            (if self.type = "Prey" then find_grass w1 fc else find_prey w1 fc)
          else none) with
        | some u => some u
        | none =>
            match (if self.gender = 1 then find_mate w1 self.type cm
              else none) with
            | some u => some u
            | none => find_wander w1 cm) := by
  unfold get_target
  rw [hself]
  dsimp only
  rw [hci]
  rcases hA : (if self.food < 80 then
      (if self.type = "Prey" then find_grass w1 fc else find_prey w1 fc)
    else none) with _ | u
  · rcases hB : (if self.gender = 1 then find_mate w1 self.type cm
        else none) with _ | u2
    · simp [hA, hB]
    · simp [hA, hB]
  · simp [hA]

/-! ### Path semantics of Animal.step -/

lemma step_num_modifyAnimal (w : World) (uid : ℕ) (f : Animal → Animal) :
    (w.modifyAnimal uid f).step_num = w.step_num := rfl

lemma animal_step_dead (w : World) (uid : ℕ) (r : ARand) (a0 : Animal)
    (h0 : w.findAnimal uid = some a0) (hdead : a0.alive = false) :
    animal_step w uid r = some (w.kill uid) := by
  unfold animal_step
  rw [h0]
  dsimp only
  rw [if_pos (by rw [hdead]; exact Bool.false_ne_true)]

lemma animal_step_ret_none (w : World) (uid : ℕ) (r : ARand) (a0 : Animal)
    (h0 : w.findAnimal uid = some a0) (halive : a0.alive = true)
    (hfood : ¬ a0.food - FOOD_PER_TICK ≤ 0)
    (hage : ¬ a0.age + AGE_T > a0.max_age)
    (hpregs : a0.pregs = 0)
    (hstep : ¬ w.step_num % 10 = 0)
    (w4 : World)
    (hgt : get_target (w.modifyAnimal uid (fun a =>
        { a with food := a.food - FOOD_PER_TICK, age := a.age + AGE_T })) uid
        r.cellmates r.food_cells = (w4, none)) :
    animal_step w uid r =
      some (w4.modifyAnimal uid (fun a => { a with target := none })) := by
  unfold animal_step
  rw [h0]
  dsimp only
  rw [if_neg (not_not_intro halive)]
  rw [findAnimal_modifyAnimal_self, h0, Option.map_some']
  dsimp only
  rw [if_neg hfood, if_neg hage, if_neg (not_not_intro hpregs),
    step_num_modifyAnimal, if_neg hstep]
  unfold move_phase
  rw [hgt]

lemma animal_step_pregnant_moves (w : World) (uid : ℕ) (r : ARand) (a0 : Animal)
    (h0 : w.findAnimal uid = some a0) (halive : a0.alive = true)
    (hfood : ¬ a0.food - FOOD_PER_TICK ≤ 0)
    (hage : ¬ a0.age + AGE_T > a0.max_age)
    (hpregs : ¬ a0.pregs = 0) (hnb : ¬ a0.pregs + AGE_T ≥ 1)
    (hstep : w.step_num % 10 = 0)
    (w4 : World) (tuid : ℕ)
    (hgt : get_target (((w.modifyAnimal uid (fun a =>
          { a with food := a.food - FOOD_PER_TICK,
                   age := a.age + AGE_T })).modifyAnimal uid (fun a =>
          { a with food := a.food - FOOD_PER_TICK / 3,
                   pregs := a.pregs + AGE_T })).modifyAnimal uid
          Animal.set_speed) uid r.cellmates r.food_cells = (w4, some tuid))
    (t : Ent) (tpos spos : ℝ × ℝ) (a3 : Animal)
    (hent : (w4.modifyAnimal uid
        (fun a => { a with target := some tuid })).findEnt tuid = some t)
    (htpos : t.pos = some tpos)
    (ha3 : (w4.modifyAnimal uid
        (fun a => { a with target := some tuid })).findAnimal uid = some a3)
    (hspos : a3.pos = some spos)
    (hin : ¬ space_out_of_bounds
      ((calc_move spos.1 spos.2 tpos.1 tpos.2 ((a3.speed : ℝ))).1)) :
    animal_step w uid r =
      some ((w4.modifyAnimal uid
        (fun a => { a with target := some tuid })).modifyAnimal
        uid (fun a =>
          { a with pos := some ((calc_move spos.1 spos.2 tpos.1 tpos.2 ((a3.speed : ℝ))).1) })) := by
  unfold animal_step
  rw [h0]
  dsimp only
  rw [if_neg (not_not_intro halive)]
  rw [findAnimal_modifyAnimal_self, h0, Option.map_some']
  dsimp only
  rw [if_neg hfood, if_neg hage, if_pos hpregs]
  rw [findAnimal_modifyAnimal_self, findAnimal_modifyAnimal_self, h0,
    Option.map_some', Option.map_some']
  dsimp only
  rw [if_neg hnb, step_num_modifyAnimal, step_num_modifyAnimal, if_pos hstep]
  unfold move_phase
  rw [hgt]
  dsimp only
  rw [hent]
  dsimp only
  rw [htpos]
  dsimp only
  rw [ha3]
  dsimp only
  rw [hspos]
  dsimp only
  rw [if_neg hin]

lemma findAnimal_of_findEnt (w : World) (uid : ℕ) (a : Animal)
    (h : w.findEnt uid = some (.animal a)) : w.findAnimal uid = some a := by
  unfold World.findAnimal
  rw [h]

/-! ### Claim C10: predation does not require the prey to be alive -/

/-- C10: the feeding branch of `get_target` never consults the target's
    `alive` flag: a Tiger with food < 80 whose target is a Prey at distance
    < 0.5 feeds (food += 40 + prey.food / 4, target marked not-alive,
    returned target none) even when the Prey was already marked not-alive
    earlier in the same tick, so one Prey can be consumed by more than one
    Tiger in the same tick. -/
theorem tiger_eats_dead_prey (w : World) (self_uid tuid : ℕ) (cm fc : List ℕ)
    (self ta : Animal) (spos tpos : ℝ × ℝ)
    (hself : w.findAnimal self_uid = some self)
    (ht : self.target = some tuid)
    (hent : w.findEnt tuid = some (.animal ta))
    (hspos : self.pos = some spos) (htpos : ta.pos = some tpos)
    (hdist : get_distance spos tpos < 1/2)
    (htype : self.type = "Tiger") (httype : ta.type = "Prey")
    (hfood : self.food < 80)
    (hdead : ta.alive = false)
    (hne : tuid ≠ self_uid) :
    (get_target w self_uid cm fc).2 = none ∧
    (get_target w self_uid cm fc).1.findAnimal self_uid =
      some { self with food := self.food + (40 + ta.food / 4) } ∧
    (get_target w self_uid cm fc).1.findAnimal tuid =
      some { ta with alive := false } := by
  have hci := close_interaction_tiger_eats w self_uid tuid self ta spos tpos
    ht hent hspos htpos hdist htype httype hfood
  have hgt := get_target_of_ret w self_uid cm fc self _ none hself hci
  rw [hgt]
  refine ⟨rfl, ?_, ?_⟩
  · rw [findAnimal_modifyAnimal_other _ _ _ _ (Ne.symm hne),
      findAnimal_modifyAnimal_self, hself, Option.map_some']
  · rw [findAnimal_modifyAnimal_self, findAnimal_modifyAnimal_other _ _ _ _ hne,
      findAnimal_of_findEnt w tuid ta hent, Option.map_some']

/-- Scenario prey for the C10 witness: already marked not-alive but not yet
    removed from the world. -/
def C10prey : Animal :=
  { gender := 0, pregs := 0, target := none, age := 2, pos := some (0, 0),
    alive := false, food := 40, type := "Prey", max_age := 9, max_speed := 1,
    speed := 1 }

/-- Scenario tiger for the C10 witness, targeting the dead prey. -/
def C10tiger : Animal :=
  { gender := 1, pregs := 0, target := some 2, age := 3, pos := some (0, 0),
    alive := true, food := 50, type := "Tiger", max_age := 17, max_speed := 2,
    speed := 2 }

/-- A world in which tiger 1 has already fed on prey 2 this tick (prey 2 is
    tombstoned) and tiger 3 also targets prey 2. -/
def W10 : World :=
  { ents := [(1, .animal C10tiger), (2, .animal C10prey), (3, .animal C10tiger)],
    schedule := [1, 2, 3], space := [1, 2, 3], step_num := 1, grass_ticks := [],
    count := 3, Prey_count := 1, Tiger_count := 2, last_uid := 3 }

/-- C10 witness: the second tiger feeds on the already-dead prey. -/
theorem tiger_eats_dead_prey_witness :
    (get_target W10 3 [] []).2 = none ∧
    (get_target W10 3 [] []).1.findAnimal 3 =
      some { C10tiger with food := C10tiger.food + (40 + C10prey.food / 4) } ∧
    (get_target W10 3 [] []).1.findAnimal 2 =
      some { C10prey with alive := false } :=
  tiger_eats_dead_prey W10 3 2 [] [] C10tiger C10prey (0, 0) (0, 0)
    rfl rfl rfl rfl rfl
    (by norm_num [get_distance]) rfl rfl (by norm_num [C10tiger]) rfl
    (by decide)

/-! ### Claim C3: predation effects (amended) -/

/-- C3 amended: a Tiger with food < 80 whose target is a Prey at distance
    < 0.5 gains exactly `40 + prey.food / 4` food and clears its target;
    the Prey is only marked not-alive in that step (it stays in the
    scheduler and the space), and it is removed from the world at its own
    next activation, when its step detects the tombstone and calls kill. -/
theorem tiger_predation_effects (w : World) (self_uid tuid : ℕ)
    (cm fc : List ℕ) (self ta : Animal) (spos tpos : ℝ × ℝ)
    (hself : w.findAnimal self_uid = some self)
    (ht : self.target = some tuid)
    (hent : w.findEnt tuid = some (.animal ta))
    (hspos : self.pos = some spos) (htpos : ta.pos = some tpos)
    (hdist : get_distance spos tpos < 1/2)
    (htype : self.type = "Tiger") (httype : ta.type = "Prey")
    (hfood : self.food < 80)
    (hne : tuid ≠ self_uid) :
    (get_target w self_uid cm fc).2 = none ∧
    (get_target w self_uid cm fc).1.findAnimal self_uid =
      some { self with food := self.food + (40 + ta.food / 4) } ∧
    (get_target w self_uid cm fc).1.findAnimal tuid =
      some { ta with alive := false } ∧
    (get_target w self_uid cm fc).1.schedule = w.schedule ∧
    (get_target w self_uid cm fc).1.space = w.space ∧
    (∀ (w2 : World) (uid2 : ℕ) (r2 : ARand) (a2 : Animal),
      w2.findAnimal uid2 = some a2 → a2.alive = false →
      animal_step w2 uid2 r2 = some (w2.kill uid2)) := by
  have hci := close_interaction_tiger_eats w self_uid tuid self ta spos tpos
    ht hent hspos htpos hdist htype httype hfood
  have hgt := get_target_of_ret w self_uid cm fc self _ none hself hci
  rw [hgt]
  refine ⟨rfl, ?_, ?_, rfl, rfl, ?_⟩
  · rw [findAnimal_modifyAnimal_other _ _ _ _ (Ne.symm hne),
      findAnimal_modifyAnimal_self, hself, Option.map_some']
  · rw [findAnimal_modifyAnimal_self, findAnimal_modifyAnimal_other _ _ _ _ hne,
      findAnimal_of_findEnt w tuid ta hent, Option.map_some']
  · intro w2 uid2 r2 a2 h2 hd2
    exact animal_step_dead w2 uid2 r2 a2 h2 hd2

/-- Scenario prey for C3: alive and about to be eaten. -/
def C3prey : Animal :=
  { gender := 0, pregs := 0, target := none, age := 2, pos := some (0, 0),
    alive := true, food := 40, type := "Prey", max_age := 9, max_speed := 1,
    speed := 1 }

/-- Scenario tiger for C3, targeting the prey. -/
def C3tiger : Animal :=
  { gender := 1, pregs := 0, target := some 2, age := 3, pos := some (0, 0),
    alive := true, food := 50, type := "Tiger", max_age := 17, max_speed := 2,
    speed := 2 }

/-- The C3 counterexample world: one hungry tiger, one live prey at the same
    position. -/
def W3 : World :=
  { ents := [(1, .animal C3tiger), (2, .animal C3prey)],
    schedule := [1, 2], space := [1, 2], step_num := 1, grass_ticks := [],
    count := 2, Prey_count := 1, Tiger_count := 1, last_uid := 2 }

/-- Empty per-activation randomness for scenario steps. -/
def R0 : ARand :=
  { babies := 0, genders := fun _ => 0, max_ages := fun _ => 9,
    cellmates := [], food_cells := [] }

/-- C3 counterexample: after the whole step of the tiger (which feeds on the
    prey), the prey is NOT removed from the world: it is still in the
    scheduler and the space, merely tombstoned (`alive = false`). -/
theorem tiger_predation_cex :
    ∃ w, animal_step W3 1 R0 = some w ∧
      w.findAnimal 2 = some { C3prey with alive := false } ∧
      2 ∈ w.schedule ∧ 2 ∈ w.space := by
  have hself1 : (W3.modifyAnimal 1 (fun a =>
      { a with food := a.food - FOOD_PER_TICK, age := a.age + AGE_T })).findAnimal 1 =
      some { C3tiger with
             food := C3tiger.food - FOOD_PER_TICK,
             age := C3tiger.age + AGE_T } := rfl
  have hent1 : (W3.modifyAnimal 1 (fun a =>
      { a with food := a.food - FOOD_PER_TICK, age := a.age + AGE_T })).findEnt 2 =
      some (.animal C3prey) := rfl
  have hci := close_interaction_tiger_eats _ 1 2
    { C3tiger with
      food := C3tiger.food - FOOD_PER_TICK,
      age := C3tiger.age + AGE_T } C3prey (0, 0) (0, 0)
    rfl hent1 rfl rfl (by norm_num [get_distance]) rfl rfl
    (by norm_num [C3tiger, FOOD_PER_TICK])
  have hgt := get_target_of_ret _ 1 R0.cellmates R0.food_cells _ _ none hself1 hci
  have hstep := animal_step_ret_none W3 1 R0 C3tiger rfl rfl
    (by norm_num [C3tiger, FOOD_PER_TICK])
    (by norm_num [C3tiger, AGE_T]) rfl (by decide) _ hgt
  refine ⟨_, hstep, rfl, by decide, by decide⟩

/-! ### Claim C5: mating (amended) -/

/-- C5 amended: when an animal's current target is a same-species animal
    within distance 0.5 that satisfies `can_mate`, the target's pregnancy is
    set to 0.1 and the initiator's own state (its pregnancy in particular)
    is unchanged; the initiator then KEEPS the mate as its returned target
    (`get_target` returns the mate: there is no fall-through to the wander
    rule in that step). -/
theorem mating_keeps_target (w : World) (self_uid tuid : ℕ) (cm fc : List ℕ)
    (self ta : Animal) (spos tpos : ℝ × ℝ)
    (hself : w.findAnimal self_uid = some self)
    (ht : self.target = some tuid)
    (hent : w.findEnt tuid = some (.animal ta))
    (hspos : self.pos = some spos) (htpos : ta.pos = some tpos)
    (hdist : get_distance spos tpos < 1/2)
    (hnotpred : ¬ (self.type = "Tiger" ∧ ta.type = "Prey" ∧ self.food < 80))
    (hmate : self.type = ta.type ∧ can_mate ta)
    (hne : tuid ≠ self_uid) :
    (get_target w self_uid cm fc).2 = some tuid ∧
    (get_target w self_uid cm fc).1.findAnimal tuid =
      some { ta with pregs := 1/10 } ∧
    (get_target w self_uid cm fc).1.findAnimal self_uid = some self := by
  have hci := close_interaction_mate w self_uid tuid self ta spos tpos
    ht hent hspos htpos hdist hnotpred hmate
  have hgt := get_target_of_keep_some w self_uid cm fc self _ tuid hself hci
  rw [hgt]
  refine ⟨rfl, ?_, ?_⟩
  · rw [findAnimal_modifyAnimal_self, findAnimal_of_findEnt w tuid ta hent,
      Option.map_some']
  · rw [findAnimal_modifyAnimal_other _ _ _ _ (Ne.symm hne), hself]

/-- Scenario female prey for C5: satisfies `can_mate`. -/
def C5female : Animal :=
  { gender := 0, pregs := 0, target := none, age := 3, pos := some (0, 0),
    alive := true, food := 60, type := "Prey", max_age := 9, max_speed := 1,
    speed := 1 }

/-- Scenario male prey for C5, targeting the female. -/
def C5male : Animal :=
  { gender := 1, pregs := 0, target := some 2, age := 3, pos := some (0, 0),
    alive := true, food := 90, type := "Prey", max_age := 9, max_speed := 1,
    speed := 1 }

/-- The C5 world: a male prey whose current target is a mateable female at
    the same position. -/
def W5 : World :=
  { ents := [(1, .animal C5male), (2, .animal C5female)],
    schedule := [1, 2], space := [1, 2], step_num := 1, grass_ticks := [],
    count := 2, Prey_count := 2, Tiger_count := 0, last_uid := 2 }

/-- C5 counterexample: after mating, `get_target` RETURNS the mate (it does
    not fall through to the wander rule), while the mate's pregnancy is set
    to 0.1 and the initiator's pregnancy stays 0. -/
theorem mating_fallthrough_cex :
    (get_target W5 1 [] []).2 = some 2 ∧
    (get_target W5 1 [] []).1.findAnimal 2 =
      some { C5female with pregs := 1/10 } ∧
    (get_target W5 1 [] []).1.findAnimal 1 = some C5male := by
  have hci := close_interaction_mate W5 1 2 C5male C5female (0, 0) (0, 0)
    rfl rfl rfl rfl (by norm_num [get_distance]) (by decide) ⟨rfl, rfl⟩
  have hgt := get_target_of_keep_some W5 1 [] [] C5male _ 2 rfl hci
  rw [hgt]
  exact ⟨rfl, rfl, rfl⟩

/-! ### Claim C4: removal of dead animals (amended) -/

lemma animal_step_starves (w : World) (uid : ℕ) (r : ARand) (a0 : Animal)
    (h0 : w.findAnimal uid = some a0) (halive : a0.alive = true)
    (hfood : a0.food - FOOD_PER_TICK ≤ 0) :
    animal_step w uid r =
      some ((w.modifyAnimal uid (fun a =>
        { a with food := a.food - FOOD_PER_TICK, age := a.age + AGE_T })).kill
          uid) := by
  unfold animal_step
  rw [h0]
  dsimp only
  rw [if_neg (not_not_intro halive)]
  rw [findAnimal_modifyAnimal_self, h0, Option.map_some']
  dsimp only
  rw [if_pos hfood]

lemma animal_step_ages_out (w : World) (uid : ℕ) (r : ARand) (a0 : Animal)
    (h0 : w.findAnimal uid = some a0) (halive : a0.alive = true)
    (hfood : ¬ a0.food - FOOD_PER_TICK ≤ 0)
    (hage : a0.age + AGE_T > a0.max_age) :
    animal_step w uid r =
      some ((w.modifyAnimal uid (fun a =>
        { a with food := a.food - FOOD_PER_TICK, age := a.age + AGE_T })).kill
          uid) := by
  unfold animal_step
  rw [h0]
  dsimp only
  rw [if_neg (not_not_intro halive)]
  rw [findAnimal_modifyAnimal_self, h0, Option.map_some']
  dsimp only
  rw [if_neg hfood, if_pos hage]

lemma kill_not_mem (w : World) (uid : ℕ) :
    ¬ uid ∈ (w.kill uid).schedule ∧ ¬ uid ∈ (w.kill uid).space := by
  unfold World.kill
  rcases h : w.findAnimal uid with _ | a
  · constructor <;> simp [List.mem_filter]
  · dsimp only
    split_ifs <;> constructor <;> simp [List.mem_filter]

/-- C4 amended: an animal whose own activation detects it dead (tombstone,
    starvation, old age) is removed from scheduler and space in that same
    activation; but an animal killed by a predator is only tombstoned and
    survives in the entity table and the scheduler until its own next
    activation, which can lie in the following tick (see the
    counterexample). -/
theorem dead_removed_on_detection :
    (∀ (w : World) (uid : ℕ) (r : ARand) (a : Animal),
      w.findAnimal uid = some a → a.alive = false →
      animal_step w uid r = some (w.kill uid)) ∧
    (∀ (w : World) (uid : ℕ) (r : ARand) (a : Animal),
      w.findAnimal uid = some a → a.alive = true →
      a.food - FOOD_PER_TICK ≤ 0 →
      animal_step w uid r =
        some ((w.modifyAnimal uid (fun a =>
          { a with food := a.food - FOOD_PER_TICK, age := a.age + AGE_T })).kill
            uid)) ∧
    (∀ (w : World) (uid : ℕ) (r : ARand) (a : Animal),
      w.findAnimal uid = some a → a.alive = true →
      ¬ a.food - FOOD_PER_TICK ≤ 0 → a.age + AGE_T > a.max_age →
      animal_step w uid r =
        some ((w.modifyAnimal uid (fun a =>
          { a with food := a.food - FOOD_PER_TICK, age := a.age + AGE_T })).kill
            uid)) ∧
    (∀ (w : World) (uid : ℕ),
      ¬ uid ∈ (w.kill uid).schedule ∧ ¬ uid ∈ (w.kill uid).space) :=
  ⟨fun w uid r a h hd => animal_step_dead w uid r a h hd,
   fun w uid r a h ha hf => animal_step_starves w uid r a h ha hf,
   fun w uid r a h ha hf hg => animal_step_ages_out w uid r a h ha hf hg,
   fun w uid => kill_not_mem w uid⟩

/-- C4 amended witness: a tombstoned prey is killed at its own activation,
    a starving prey is killed within its own activation, and `kill` removes
    the animal from scheduler and space. -/
theorem dead_removed_on_detection_witness :
    (animal_step { W3 with ents := [(1, .animal C3tiger),
        (2, .animal { C3prey with alive := false })] } 2 R0 =
      some (World.kill { W3 with ents := [(1, .animal C3tiger),
          (2, .animal { C3prey with alive := false })] } 2)) ∧
    (animal_step { W3 with ents := [(1, .animal C3tiger),
        (2, .animal { C3prey with food := 1/10 })] } 2 R0 =
      some (({ W3 with ents := [(1, .animal C3tiger),
          (2, .animal { C3prey with food := 1/10 })] }.modifyAnimal 2 (fun a =>
        { a with food := a.food - FOOD_PER_TICK, age := a.age + AGE_T })).kill
          2)) ∧
    (¬ 2 ∈ (W3.kill 2).schedule ∧ ¬ 2 ∈ (W3.kill 2).space) :=
  ⟨dead_removed_on_detection.1 _ 2 R0 { C3prey with alive := false } rfl rfl,
   dead_removed_on_detection.2.1 _ 2 R0 { C3prey with food := 1/10 } rfl rfl
     (by norm_num [C3prey, FOOD_PER_TICK]),
   dead_removed_on_detection.2.2.2 W3 2⟩

/-- Unfolded form of Prey_model.step. -/
lemma model_step_eq (w : World) (order : List ℕ) (rands : ℕ → ARand) :
    model_step w order rands =
      order.foldl
        (fun ow uid => match ow with
          | none => none
          | some w =>
              if uid ∈ w.schedule then animal_step w uid (rands uid)
              else some w)
        (some (do_regrow { w with step_num := w.step_num + 1 })) := rfl

/-- Scenario prey for C4: well fed, activates before the tiger. -/
def C4prey : Animal :=
  { gender := 0, pregs := 0, target := none, age := 2, pos := some (0, 0),
    alive := true, food := 90, type := "Prey", max_age := 9, max_speed := 1,
    speed := 1 }

/-- Scenario tiger for C4, targeting the prey. -/
def C4tiger : Animal :=
  { gender := 1, pregs := 0, target := some 1, age := 3, pos := some (0, 0),
    alive := true, food := 50, type := "Tiger", max_age := 17, max_speed := 2,
    speed := 2 }

/-- The C4 world before the tick. -/
def W4 : World :=
  { ents := [(1, .animal C4prey), (2, .animal C4tiger)],
    schedule := [1, 2], space := [1, 2], step_num := 1, grass_ticks := [],
    count := 2, Prey_count := 1, Tiger_count := 1, last_uid := 2 }

/-- The C4 world after the tick counter increment and (empty) regrowth. -/
def W4b : World :=
  { ents := [(1, .animal C4prey), (2, .animal C4tiger)],
    schedule := [1, 2], space := [1, 2], step_num := 2, grass_ticks := [],
    count := 2, Prey_count := 1, Tiger_count := 1, last_uid := 2 }

/-- Per-uid randomness for the C4 tick. -/
def RR : ℕ → ARand := fun _ => R0

/-- C4 counterexample: in the tick in which the tiger (activating after the
    prey) kills the prey, the whole `model_step` completes with the dead
    prey still present in the entity table, the scheduler and the space — a
    reference to a dead animal survives into the next tick. -/
theorem dead_ref_survives_cex :
    ∃ w, model_step W4 [1, 2] RR = some w ∧
      (w.findAnimal 1).map Animal.alive = some false ∧
      1 ∈ w.schedule ∧ 1 ∈ w.space := by
  have hb : do_regrow { W4 with step_num := W4.step_num + 1 } = W4b := rfl
  -- the prey's activation: nothing to do, target stays none
  have hself1 : (W4b.modifyAnimal 1 (fun a =>
      { a with food := a.food - FOOD_PER_TICK, age := a.age + AGE_T })).findAnimal
        1 = some { C4prey with
                   food := C4prey.food - FOOD_PER_TICK,
                   age := C4prey.age + AGE_T } := rfl
  have hci1 := close_interaction_no_target
    (W4b.modifyAnimal 1 (fun a =>
      { a with food := a.food - FOOD_PER_TICK, age := a.age + AGE_T })) 1
    { C4prey with
      food := C4prey.food - FOOD_PER_TICK,
      age := C4prey.age + AGE_T } rfl
  have hgt1 : get_target (W4b.modifyAnimal 1 (fun a =>
      { a with food := a.food - FOOD_PER_TICK, age := a.age + AGE_T })) 1
      (RR 1).cellmates (RR 1).food_cells =
      (W4b.modifyAnimal 1 (fun a =>
        { a with food := a.food - FOOD_PER_TICK, age := a.age + AGE_T }),
       none) := by
    rw [get_target_of_keep_none _ 1 (RR 1).cellmates (RR 1).food_cells _ _
      hself1 hci1]
    norm_num [C4prey, FOOD_PER_TICK, RR, R0, find_wander]
  have h1 := animal_step_ret_none W4b 1 (RR 1) C4prey rfl rfl
    (by norm_num [C4prey, FOOD_PER_TICK])
    (by norm_num [C4prey, AGE_T]) rfl (by decide) _ hgt1
  -- the tiger's activation: feed on the prey
  set W4c := ((W4b.modifyAnimal 1 (fun a =>
      { a with food := a.food - FOOD_PER_TICK,
               age := a.age + AGE_T })).modifyAnimal 1
    (fun a => { a with target := none })) with hW4c
  have hself2 : (W4c.modifyAnimal 2 (fun a =>
      { a with food := a.food - FOOD_PER_TICK, age := a.age + AGE_T })).findAnimal
        2 = some { C4tiger with
                   food := C4tiger.food - FOOD_PER_TICK,
                   age := C4tiger.age + AGE_T } := rfl
  have hent2 : (W4c.modifyAnimal 2 (fun a =>
      { a with food := a.food - FOOD_PER_TICK, age := a.age + AGE_T })).findEnt 1 =
      some (.animal { C4prey with
                      food := C4prey.food - FOOD_PER_TICK,
                      age := C4prey.age + AGE_T, target := none }) := rfl
  have hci2 := close_interaction_tiger_eats _ 2 1
    { C4tiger with
      food := C4tiger.food - FOOD_PER_TICK,
      age := C4tiger.age + AGE_T }
    { C4prey with
      food := C4prey.food - FOOD_PER_TICK,
      age := C4prey.age + AGE_T, target := none } (0, 0) (0, 0)
    rfl hent2 rfl rfl (by norm_num [get_distance]) rfl rfl
    (by norm_num [C4tiger, FOOD_PER_TICK])
  have hgt2 := get_target_of_ret _ 2 (RR 2).cellmates (RR 2).food_cells _ _ none
    hself2 hci2
  have h2 := animal_step_ret_none W4c 2 (RR 2) C4tiger rfl rfl
    (by norm_num [C4tiger, FOOD_PER_TICK])
    (by norm_num [C4tiger, AGE_T]) rfl (by decide) _ hgt2
  have hms : model_step W4 [1, 2] RR = animal_step W4c 2 (RR 2) := by
    rw [model_step_eq, hb]
    simp only [List.foldl_cons, List.foldl_nil]
    rw [if_pos (by decide : 1 ∈ W4b.schedule), h1]
    dsimp only
    rw [if_pos (by decide : 2 ∈ W4c.schedule)]
  rw [h2] at hms
  refine ⟨_, hms, rfl, by decide, by decide⟩

/-! ### Claims C1 / C8: the out-of-bounds counterexample scenario

    An old pregnant prey: base speed `get_speed(8.505, 9, 1) ≈ 0.449` minus
    pregnancy drag `0.705` gives a negative speed, so the animal walks away
    from its target.  Standing at `x = 80` with its target towards the
    origin, it ends at `x ≈ 80.256`: outside the world bounds `[0, 80]²`,
    but still inside mesa's space `[0, 81]²`, so `move_agent` applies the
    position silently and the tick completes. -/

/-- The pregnant prey of the out-of-bounds scenario, standing at the world
    edge. -/
noncomputable def C1prey : Animal :=
  { gender := 0, pregs := 7/10, target := some 2, age := 17/2,
    pos := some (80, 0), alive := true, food := 60, type := "Prey",
    max_age := 9, max_speed := 1, speed := 1 }

/-- The grass patch the prey is heading to. -/
noncomputable def C1patch : Patch := { type := "Grass", grass := 1, pos := some (79, 0) }

/-- The out-of-bounds scenario world, one tick before a speed update. -/
noncomputable def WC1 : World :=
  { ents := [(1, .animal C1prey), (2, .patch C1patch)],
    schedule := [1], space := [1, 2], step_num := 9, grass_ticks := [],
    count := 1, Prey_count := 1, Tiger_count := 0, last_uid := 2 }

/-- The scenario world after the tick counter increment and (empty)
    regrowth. -/
noncomputable def WC1b : World :=
  { ents := [(1, .animal C1prey), (2, .patch C1patch)],
    schedule := [1], space := [1, 2], step_num := 10, grass_ticks := [],
    count := 1, Prey_count := 1, Tiger_count := 0, last_uid := 2 }

/-- The prey's state just before it moves: fed, aged, pregnancy advanced,
    speed recomputed (negative), target refreshed. -/
noncomputable def C1preyMoved : Animal :=
  { gender := 0, pregs := 7/10 + AGE_T, target := some 2,
    age := 17/2 + AGE_T, pos := some (80, 0), alive := true,
    food := 60 - FOOD_PER_TICK - FOOD_PER_TICK / 3, type := "Prey",
    max_age := 9, max_speed := 1, speed := -(20475381/80000000) }

lemma C1_far : ¬ get_distance ((80 : ℝ), 0) (79, 0) < 1/2 := by
  have hd : get_distance ((80 : ℝ), 0) (79, 0) = 1 := by
    unfold get_distance
    dsimp only
    rw [show ((0:ℝ) - 0) ^ 2 + ((79:ℝ) - 80) ^ 2 = 1 ^ 2 by norm_num]
    rw [Real.sqrt_sq (by norm_num : (0:ℝ) ≤ 1)]
  rw [hd]
  norm_num

lemma C1_move_eval :
    (calc_move 80 0 79 0 ((-(20475381/80000000) : ℚ) : ℝ)).1 =
      (6420475381/80000000, 0) := by
  have hd : calc_delta 80 0 79 0 ((-(20475381/80000000) : ℚ) : ℝ) =
      ((20475381/80000000 : ℝ), 0) := by
    rw [calc_delta_of_eq _ _ _ _ _ (by norm_num)]
    rw [if_pos (by norm_num : (79:ℝ) - 80 < 0)]
    simp only [Prod.mk.injEq]
    constructor
    · push_cast
      ring
    · trivial
  have hg : ¬ (|(calc_delta 80 0 79 0
        ((-(20475381/80000000) : ℚ) : ℝ)).1| > |(79:ℝ) - 80| ∨
      |(calc_delta 80 0 79 0 ((-(20475381/80000000) : ℚ) : ℝ)).2| >
        |(0:ℝ) - 0|) := by
    rw [hd]
    push_neg
    constructor
    · dsimp only
      rw [abs_of_nonneg (by norm_num : (0:ℝ) ≤ 20475381/80000000)]
      rw [abs_of_nonpos (by norm_num : (79:ℝ) - 80 ≤ 0)]
      norm_num
    · simp
  rw [calc_move_fst_of_not_guard _ _ _ _ _ hg, hd]
  simp only [Prod.mk.injEq]
  refine ⟨by norm_num, by norm_num⟩

/-- The complete evaluation of the scenario tick. -/
lemma WC1_step_eval :
    model_step WC1 [1] RR =
      some (((((WC1b.modifyAnimal 1 (fun a =>
          { a with food := a.food - FOOD_PER_TICK,
                   age := a.age + AGE_T })).modifyAnimal 1 (fun a =>
          { a with food := a.food - FOOD_PER_TICK / 3,
                   pregs := a.pregs + AGE_T })).modifyAnimal 1
          Animal.set_speed).modifyAnimal 1
            (fun a => { a with target := some 2 })).modifyAnimal 1
        (fun a => { a with pos := some ((calc_move 80 0 79 0
          ((C1preyMoved.speed : ℝ))).1) })) := by
  set W3x := (((WC1b.modifyAnimal 1 (fun a =>
      { a with food := a.food - FOOD_PER_TICK,
               age := a.age + AGE_T })).modifyAnimal 1 (fun a =>
      { a with food := a.food - FOOD_PER_TICK / 3,
               pregs := a.pregs + AGE_T })).modifyAnimal 1
      Animal.set_speed) with hW3x
  have hbase : WC1b.findAnimal 1 = some C1prey := rfl
  have hself : W3x.findAnimal 1 = some C1preyMoved := by
    rw [hW3x, findAnimal_modifyAnimal_self, findAnimal_modifyAnimal_self,
      findAnimal_modifyAnimal_self, hbase]
    simp only [Option.map_some', Option.some.injEq]
    unfold Animal.set_speed
    norm_num [C1prey, C1preyMoved, AGE_T, FOOD_PER_TICK, get_speed,
      Animal.mk.injEq]
  have hentp : W3x.findEnt 2 = some (.patch C1patch) := by
    rw [hW3x]
    rfl
  have hci := close_interaction_far W3x 1 2 C1preyMoved (.patch C1patch)
    (80, 0) (79, 0) rfl hentp rfl rfl C1_far
  have hgt := get_target_of_keep_some W3x 1 (RR 1).cellmates (RR 1).food_cells
    C1preyMoved W3x 2 hself hci
  have hb : do_regrow { WC1 with step_num := WC1.step_num + 1 } = WC1b := rfl
  have hin : ¬ space_out_of_bounds ((calc_move 80 0 79 0
      ((C1preyMoved.speed : ℝ))).1) := by
    rw [show ((C1preyMoved.speed : ℝ)) = ((-(20475381/80000000) : ℚ) : ℝ) from
      rfl, C1_move_eval]
    norm_num [space_out_of_bounds]
  have hstep := animal_step_pregnant_moves WC1b 1 (RR 1) C1prey rfl rfl
    (by norm_num [C1prey, FOOD_PER_TICK])
    (by norm_num [C1prey, AGE_T])
    (by norm_num [C1prey])
    (by norm_num [C1prey, AGE_T])
    (by decide)
    W3x 2 hgt (.patch C1patch) (79, 0) (80, 0) C1preyMoved
    (by rw [findEnt_modifyAnimal_other _ _ _ _ (by decide : (2:ℕ) ≠ 1), hentp])
    rfl
    (by rw [findAnimal_modifyAnimal_self, hself, Option.map_some']; rfl)
    rfl
    hin
  rw [model_step_eq, hb]
  simp only [List.foldl_cons, List.foldl_nil]
  rw [if_pos (by decide : 1 ∈ WC1b.schedule), hstep, hW3x]

/-- C1 counterexample: a validly reachable animal state (a pregnant prey at
    the world edge whose pregnancy drag exceeds its age-curve base speed)
    walks backwards past `x = 80`; the new position lies in the window
    `(80, 81]`, inside mesa's non-toroidal space, so `move_agent` applies it
    without raising and the whole `step()` completes with the live animal
    outside the world bounds `[0, 80]²`. -/
theorem step_out_of_bounds_cex :
    ∃ w, model_step WC1 [1] RR = some w ∧
      (w.findAnimal 1).map Animal.pos =
        some (some (6420475381/80000000, 0)) ∧
      (w.findAnimal 1).map Animal.alive = some true ∧
      (80 : ℝ) < 6420475381/80000000 := by
  refine ⟨_, WC1_step_eval, ?_, rfl, by norm_num⟩
  rw [show ((C1preyMoved.speed : ℝ)) = ((-(20475381/80000000) : ℚ) : ℝ) from
    rfl, C1_move_eval]
  rfl

/-! ### Claim C8: out-of-bounds anomaly handling -/

/-- C8 amended: the out-of-bounds detection `0 > x > 80 or 0 > y > 80` is a
    Python chained comparison that no position can ever satisfy: no anomaly
    is ever detected (hence none is logged and nothing is clamped). -/
theorem oob_never_detected : ∀ x y : ℝ, ¬ oob_check x y := by
  intro x y h
  rcases h with ⟨h1, h2⟩ | ⟨h1, h2⟩ <;> linarith

/-- C8 amended witness: the out-of-bounds position `x = 100` is not
    detected. -/
theorem oob_never_detected_witness : oob_check 100 0 ↔ False :=
  iff_false_intro (oob_never_detected 100 0)

/-- C8 counterexample: a computed position outside the world bounds (x > 80,
    in the window `(80, 81]` that mesa's space still accepts) is neither
    detected by the dead check nor clamped: the raw `calc_move` output is
    applied to the animal unchanged and the tick completes. -/
theorem oob_undetected_propagated_cex :
    ∃ w, model_step WC1 [1] RR = some w ∧
      (w.findAnimal 1).map Animal.pos =
        some (some ((calc_move 80 0 79 0 ((C1preyMoved.speed : ℝ))).1)) ∧
      (calc_move 80 0 79 0 ((C1preyMoved.speed : ℝ))).1.1 > 80 ∧
      ¬ oob_check (calc_move 80 0 79 0 ((C1preyMoved.speed : ℝ))).1.1
        (calc_move 80 0 79 0 ((C1preyMoved.speed : ℝ))).1.2 := by
  have hmv : (calc_move 80 0 79 0 ((C1preyMoved.speed : ℝ))).1 =
      (6420475381/80000000, 0) := by
    rw [show ((C1preyMoved.speed : ℝ)) = ((-(20475381/80000000) : ℚ) : ℝ) from
      rfl, C1_move_eval]
  refine ⟨_, WC1_step_eval, rfl, ?_, oob_never_detected _ _⟩
  rw [hmv]
  norm_num

/-! ### Claim C7: idempotence of grass regrowth -/

lemma findPatch_modifyPatch_self (w : World) (uid : ℕ) (f : Patch → Patch) :
    (w.modifyPatch uid f).findPatch uid = (w.findPatch uid).map f := by
  unfold World.modifyPatch World.findPatch
  rw [findEnt_modifyEnt_self]
  cases h : w.findEnt uid with
  | none => rfl
  | some e => cases e <;> rfl

lemma findPatch_modifyPatch_other (w : World) (uid v : ℕ) (f : Patch → Patch)
    (h : v ≠ uid) : (w.modifyPatch uid f).findPatch v = w.findPatch v := by
  unfold World.modifyPatch World.findPatch
  rw [findEnt_modifyEnt_other _ _ _ _ h]

lemma calGet_calSet_self (c : List (ℕ × List ℕ)) (k : ℕ) (v : List ℕ) :
    calGet (calSet c k v) k = v := by
  unfold calSet
  split_ifs with h
  · unfold calGet
    rw [find?_map_modify k k (fun _ => v) c, if_pos rfl]
    unfold calHas at h
    rcases hf : c.find? (fun e => e.1 == k) with _ | e
    · rw [hf] at h
      simp at h
    · simp [hf]
  · have hf : c.find? (fun e => e.1 == k) = none := by
      unfold calHas at h
      exact Option.not_isSome_iff_eq_none.mp h
    unfold calGet
    rw [List.find?_append, hf]
    simp

lemma calGet_calSet_other (c : List (ℕ × List ℕ)) (k k' : ℕ) (v : List ℕ)
    (h : k' ≠ k) : calGet (calSet c k v) k' = calGet c k' := by
  unfold calSet
  split_ifs with hh
  · unfold calGet
    rw [find?_map_modify k k' (fun _ => v) c, if_neg h]
  · unfold calGet
    rw [List.find?_append]
    rcases hf : c.find? (fun e => e.1 == k') with _ | e
    · simp [hf, beq_iff_eq, Ne.symm h]
    · simp [hf]

lemma calGet_calDel_other (c : List (ℕ × List ℕ)) (k k' : ℕ) (h : k' ≠ k) :
    calGet (calDel c k) k' = calGet c k' := by
  induction c with
  | nil => rfl
  | cons e c ih =>
    by_cases he : e.1 = k
    · have hk' : ¬ ((e.1 == k') = true) := by
        simp only [beq_iff_eq, he]
        exact Ne.symm h
      have hdrop : ¬ ((fun e => decide ¬ e.1 = k) e = true) := by
        simp [he]
      unfold calDel
      rw [List.filter_cons, if_neg hdrop]
      unfold calGet
      rw [@List.find?_cons_of_neg (ℕ × List ℕ) (fun e => e.1 == k') e c hk']
      exact ih
    · have hkeep : ((fun e => decide ¬ e.1 = k) e = true) := by
        simp [he]
      unfold calDel
      rw [List.filter_cons, if_pos hkeep]
      by_cases hk' : e.1 = k'
      · have hb : ((e.1 == k') = true) := beq_iff_eq.mpr hk'
        unfold calGet
        rw [@List.find?_cons_of_pos (ℕ × List ℕ) (fun e => e.1 == k') e
            (List.filter (fun e => decide ¬ e.1 = k) c) hb,
          @List.find?_cons_of_pos (ℕ × List ℕ) (fun e => e.1 == k') e c hb]
      · have hb : ¬ ((e.1 == k') = true) := by
          simp [beq_iff_eq, hk']
        unfold calGet
        rw [@List.find?_cons_of_neg (ℕ × List ℕ) (fun e => e.1 == k') e
            (List.filter (fun e => decide ¬ e.1 = k) c) hb,
          @List.find?_cons_of_neg (ℕ × List ℕ) (fun e => e.1 == k') e c hb]
        exact ih

lemma mem_calGet_calHas (c : List (ℕ × List ℕ)) (k p : ℕ)
    (h : p ∈ calGet c k) : calHas c k = true := by
  unfold calGet at h
  unfold calHas
  rcases hf : c.find? (fun e => e.1 == k) with _ | e
  · rw [hf] at h
    simp at h
  · rw [hf]
    rfl

lemma step_num_modifyPatch (w : World) (uid : ℕ) (f : Patch → Patch) :
    (w.modifyPatch uid f).step_num = w.step_num := rfl

lemma munch_step_num (w : World) (uid : ℕ) : (w.munch uid).step_num = w.step_num := rfl

lemma munch_findPatch_other (w : World) (q p : ℕ) (h : p ≠ q) :
    (w.munch q).findPatch p = w.findPatch p := by
  unfold World.munch
  dsimp only
  rw [show ({ w.modifyPatch q (fun p => { p with grass := 0 }) with
      grass_ticks := calSet (w.modifyPatch q fun p => { p with grass := 0 }).grass_ticks
        ((w.modifyPatch q fun p => { p with grass := 0 }).step_num + grass_regrow_ticks)
        (calGet (w.modifyPatch q fun p => { p with grass := 0 }).grass_ticks
          ((w.modifyPatch q fun p => { p with grass := 0 }).step_num + grass_regrow_ticks) ++
          [q]) } : World).findPatch p =
      (w.modifyPatch q (fun p => { p with grass := 0 })).findPatch p from rfl]
  exact findPatch_modifyPatch_other w q p _ h

lemma munch_calGet (w : World) (q T : ℕ) (p : ℕ)
    (h : p ∈ calGet w.grass_ticks T) : p ∈ calGet (w.munch q).grass_ticks T := by
  unfold World.munch
  dsimp only
  by_cases hk : T = (w.modifyPatch q (fun p => { p with grass := 0 })).step_num +
      grass_regrow_ticks
  · rw [hk, calGet_calSet_self]
    rw [step_num_modifyPatch] at hk ⊢
    rw [← hk]
    exact List.mem_append_left _ h
  · rw [calGet_calSet_other _ _ _ _ hk]
    exact h

lemma fold_munch_calGet (p T : ℕ) : ∀ (l : List ℕ) (w : World),
    p ∈ calGet w.grass_ticks T →
    p ∈ calGet ((l.foldl (fun w uid => w.munch uid) w)).grass_ticks T
  | [], w, h => h
  | u :: l, w, h => by
      simp only [List.foldl_cons]
      exact fold_munch_calGet p T l (w.munch u) (munch_calGet w u T p h)

lemma fold_munch_findPatch (p : ℕ) : ∀ (l : List ℕ) (w : World), p ∉ l →
    ((l.foldl (fun w uid => w.munch uid) w)).findPatch p = w.findPatch p
  | [], w, _ => rfl
  | u :: l, w, h => by
      simp only [List.foldl_cons]
      rw [fold_munch_findPatch p l (w.munch u) (fun hc => h (List.mem_cons_of_mem _ hc))]
      exact munch_findPatch_other w u p (fun hc => h (hc ▸ List.mem_cons_self _ _))

lemma fold_munch_step_num : ∀ (l : List ℕ) (w : World),
    ((l.foldl (fun w uid => w.munch uid) w)).step_num = w.step_num
  | [], _ => rfl
  | u :: l, w => by
      simp only [List.foldl_cons]
      rw [fold_munch_step_num l (w.munch u), munch_step_num]

lemma fold_regrow_grass_one (p : ℕ) : ∀ (l : List ℕ) (w : World),
    (∃ q, w.findPatch p = some q ∧ q.grass = 1) →
    ∃ q, ((l.foldl (fun w uid => w.regrow uid) w)).findPatch p = some q ∧
      q.grass = 1
  | [], _, h => h
  | u :: l, w, h => by
      simp only [List.foldl_cons]
      refine fold_regrow_grass_one p l (w.regrow u) ?_
      obtain ⟨q, hq, hg⟩ := h
      by_cases hu : p = u
      · subst hu
        refine ⟨{ q with grass := 1 }, ?_, rfl⟩
        unfold World.regrow
        rw [findPatch_modifyPatch_self, hq, Option.map_some']
      · exact ⟨q, by rw [World.regrow, findPatch_modifyPatch_other _ _ _ _ hu]; exact hq, hg⟩

lemma fold_regrow_exists (p : ℕ) : ∀ (l : List ℕ) (w : World),
    (∃ q, w.findPatch p = some q) →
    ∃ q, ((l.foldl (fun w uid => w.regrow uid) w)).findPatch p = some q
  | [], _, h => h
  | u :: l, w, h => by
      simp only [List.foldl_cons]
      refine fold_regrow_exists p l (w.regrow u) ?_
      obtain ⟨q, hq⟩ := h
      by_cases hu : p = u
      · subst hu
        refine ⟨{ q with grass := 1 }, ?_⟩
        unfold World.regrow
        rw [findPatch_modifyPatch_self, hq, Option.map_some']
      · exact ⟨q, by rw [World.regrow, findPatch_modifyPatch_other _ _ _ _ hu]; exact hq⟩

lemma fold_regrow_mem (p : ℕ) : ∀ (l : List ℕ) (w : World), p ∈ l →
    (∃ q, w.findPatch p = some q) →
    ∃ q, ((l.foldl (fun w uid => w.regrow uid) w)).findPatch p = some q ∧
      q.grass = 1
  | [], _, hm, _ => absurd hm (List.not_mem_nil p)
  | u :: l, w, hm, hex => by
      simp only [List.foldl_cons]
      by_cases hu : p = u
      · subst hu
        refine fold_regrow_grass_one p l (w.regrow p) ?_
        obtain ⟨q, hq⟩ := hex
        refine ⟨{ q with grass := 1 }, ?_, rfl⟩
        unfold World.regrow
        rw [findPatch_modifyPatch_self, hq, Option.map_some']
      · have hm' : p ∈ l := by
          rcases List.mem_cons.mp hm with h | h
          · exact absurd h hu
          · exact h
        refine fold_regrow_mem p l (w.regrow u) hm' ?_
        obtain ⟨q, hq⟩ := hex
        exact ⟨q, by rw [World.regrow, findPatch_modifyPatch_other _ _ _ _ hu]; exact hq⟩

lemma fold_regrow_step_num : ∀ (l : List ℕ) (w : World),
    ((l.foldl (fun w uid => w.regrow uid) w)).step_num = w.step_num
  | [], _ => rfl
  | u :: l, w => by
      simp only [List.foldl_cons]
      rw [fold_regrow_step_num l (w.regrow u)]
      rfl

lemma fold_regrow_calGet (T : ℕ) : ∀ (l : List ℕ) (w : World),
    calGet ((l.foldl (fun w uid => w.regrow uid) w)).grass_ticks T =
      calGet w.grass_ticks T
  | [], _ => rfl
  | u :: l, w => by
      simp only [List.foldl_cons]
      rw [fold_regrow_calGet T l (w.regrow u)]
      rfl

lemma do_regrow_step_num (w : World) : (do_regrow w).step_num = w.step_num := by
  unfold do_regrow
  split_ifs with h
  · dsimp only
    exact fold_regrow_step_num _ _
  · rfl

lemma findPatch_update_ticks (w : World) (c : List (ℕ × List ℕ)) (p : ℕ) :
    ({ w with grass_ticks := c } : World).findPatch p = w.findPatch p := rfl

lemma fold_regrow_grass_ticks : ∀ (l : List ℕ) (w : World),
    ((l.foldl (fun w uid => w.regrow uid) w)).grass_ticks = w.grass_ticks
  | [], _ => rfl
  | u :: l, w => by
      simp only [List.foldl_cons]
      rw [fold_regrow_grass_ticks l (w.regrow u)]
      rfl

lemma munch_findPatch_self (w : World) (p : ℕ) :
    (w.munch p).findPatch p =
      (w.findPatch p).map (fun pp => { pp with grass := 0 }) := by
  rw [show (w.munch p).findPatch p =
      (w.modifyPatch p (fun pp => { pp with grass := 0 })).findPatch p from rfl]
  exact findPatch_modifyPatch_self w p _

lemma grass_regrow_ticks_eq : grass_regrow_ticks = 400 := by
  have h : (GRASS_REGROW / AGE_T : ℚ) = 400 := by
    norm_num [GRASS_REGROW, AGE_T]
  rw [grass_regrow_ticks, h]
  rw [show ((400 : ℚ)) = ((400 : ℤ) : ℚ) by norm_num, Int.floor_intCast]
  rfl

lemma munch_calGet_self (w : World) (p : ℕ) :
    p ∈ calGet (w.munch p).grass_ticks (w.step_num + grass_regrow_ticks) := by
  unfold World.munch
  dsimp only
  rw [step_num_modifyPatch, calGet_calSet_self]
  exact List.mem_append_right _ (List.mem_singleton.mpr rfl)

lemma do_regrow_exists (w : World) (p : ℕ)
    (h : ∃ q, w.findPatch p = some q) :
    ∃ q, (do_regrow w).findPatch p = some q := by
  unfold do_regrow
  split_ifs with hh
  · dsimp only
    rw [findPatch_update_ticks]
    exact fold_regrow_exists p _ w h
  · exact h

lemma do_regrow_grass_one (w : World) (p : ℕ)
    (h : ∃ q, w.findPatch p = some q ∧ q.grass = 1) :
    ∃ q, (do_regrow w).findPatch p = some q ∧ q.grass = 1 := by
  unfold do_regrow
  split_ifs with hh
  · dsimp only
    rw [findPatch_update_ticks]
    exact fold_regrow_grass_one p _ w h
  · exact h

lemma do_regrow_due (w : World) (p : ℕ)
    (hmem : p ∈ calGet w.grass_ticks w.step_num)
    (hex : ∃ q, w.findPatch p = some q) :
    ∃ q, (do_regrow w).findPatch p = some q ∧ q.grass = 1 := by
  unfold do_regrow
  rw [if_pos (mem_calGet_calHas _ _ _ hmem)]
  dsimp only
  rw [findPatch_update_ticks]
  exact fold_regrow_mem p _ w hmem hex

lemma do_regrow_calGet_other (w : World) (T : ℕ) (h : T ≠ w.step_num) :
    calGet (do_regrow w).grass_ticks T = calGet w.grass_ticks T := by
  unfold do_regrow
  split_ifs with hh
  · dsimp only
    rw [fold_regrow_grass_ticks, fold_regrow_step_num]
    exact calGet_calDel_other _ _ _ h
  · rfl

lemma grass_tick_step_num (w : World) (ms : List ℕ) :
    (grass_tick w ms).step_num = w.step_num + 1 := by
  unfold grass_tick
  dsimp only
  rw [fold_munch_step_num, do_regrow_step_num]

/-- The invariant carried across ticks for the regrowth claim: before the
    scheduled tick `T` the patch sits in the calendar entry of `T`; from `T`
    on its grass level is 1. -/
def GrassInv (T p : ℕ) (w : World) : Prop :=
  (∃ q, w.findPatch p = some q) ∧
  ((w.step_num < T ∧ p ∈ calGet w.grass_ticks T) ∨
    (T ≤ w.step_num ∧ ∃ q, w.findPatch p = some q ∧ q.grass = 1))

lemma grass_inv_tick (T p : ℕ) (w : World) (ms : List ℕ) (hms : p ∉ ms)
    (hinv : GrassInv T p w) : GrassInv T p (grass_tick w ms) := by
  obtain ⟨hex, hcase⟩ := hinv
  have hmain : ∃ q, (do_regrow { w with step_num := w.step_num + 1 }).findPatch p
      = some q := by
    rcases hcase with _ | _ <;> exact do_regrow_exists _ p hex
  constructor
  · unfold grass_tick
    dsimp only
    rw [fold_munch_findPatch p ms _ hms]
    exact hmain
  · rcases hcase with ⟨hlt, hmem⟩ | ⟨hge, hq⟩
    · rcases lt_or_eq_of_le (Nat.succ_le_of_lt hlt) with hlt1 | heq1
      · -- still before T: the calendar entry survives
        left
        constructor
        · rw [grass_tick_step_num]
          exact hlt1
        · unfold grass_tick
          dsimp only
          refine fold_munch_calGet p T ms _ ?_
          rw [do_regrow_calGet_other _ _ (by dsimp only; omega)]
          exact hmem
      · -- the scheduled tick has arrived: the patch regrows now
        right
        constructor
        · rw [grass_tick_step_num, ← heq1]
        · unfold grass_tick
          dsimp only
          rw [fold_munch_findPatch p ms _ hms]
          refine do_regrow_due _ p ?_ hex
          dsimp only
          rw [show w.step_num + 1 = T from heq1]
          exact hmem
    · right
      constructor
      · rw [grass_tick_step_num]
        omega
      · unfold grass_tick
        dsimp only
        rw [fold_munch_findPatch p ms _ hms]
        exact do_regrow_grass_one _ p hq

lemma grass_run_inv (w0 : World) (T p : ℕ) (ms : ℕ → List ℕ)
    (hm : ∀ n, p ∉ ms n) (h0 : GrassInv T p w0) :
    ∀ n, GrassInv T p (grass_run w0 ms n) ∧
      (grass_run w0 ms n).step_num = w0.step_num + n := by
  intro n
  induction n with
  | zero => exact ⟨h0, rfl⟩
  | succ n ih =>
      refine ⟨grass_inv_tick T p _ (ms n) (hm n) ih.1, ?_⟩
      show (grass_tick (grass_run w0 ms n) (ms n)).step_num = w0.step_num + (n + 1)
      rw [grass_tick_step_num, ih.2]
      omega

/-- C7: a patch whose `munch` schedules regrowth at tick
    `T = step_num + GRASS_REGROW // AGE_T` and on which `munch` is never
    called again has `grass = 1` after every later tick ≥ T (i.e. after
    `grass_regrow_ticks` further ticks and from then on forever). -/
theorem regrowth_idempotent (w : World) (p : ℕ) (pp : Patch) (ms : ℕ → List ℕ)
    (hpatch : w.findPatch p = some pp)
    (hm : ∀ n, p ∉ ms n) :
    ∀ n, grass_regrow_ticks ≤ n →
      ∃ q, (grass_run (w.munch p) ms n).findPatch p = some q ∧ q.grass = 1 := by
  have h0 : GrassInv (w.step_num + grass_regrow_ticks) p (w.munch p) := by
    constructor
    · rw [munch_findPatch_self, hpatch]
      exact ⟨_, rfl⟩
    · left
      constructor
      · rw [munch_step_num, grass_regrow_ticks_eq]
        omega
      · exact munch_calGet_self w p
  intro n hn
  obtain ⟨⟨hex, hcase⟩, hstep⟩ :=
    grass_run_inv (w.munch p) (w.step_num + grass_regrow_ticks) p ms hm h0 n
  rcases hcase with ⟨hlt, _⟩ | ⟨_, hq⟩
  · exfalso
    rw [hstep, munch_step_num] at hlt
    omega
  · exact hq

/-- A one-patch world for the C7 witness. -/
noncomputable def Wg : World :=
  { ents := [(1, .patch { type := "Grass", grass := 1, pos := some (0, 0) })],
    schedule := [], space := [1], step_num := 0, grass_ticks := [],
    count := 0, Prey_count := 0, Tiger_count := 0, last_uid := 1 }

/-- C7 witness: the one grass patch, munched at tick 0 and never again, has
    grass 1 after 400 ticks. -/
theorem regrowth_idempotent_witness :
    Wg.findPatch 1 = some { type := "Grass", grass := 1, pos := some (0, 0) } ∧
    (∀ n : ℕ, (1 : ℕ) ∉ (fun _ : ℕ => ([] : List ℕ)) n) ∧
    grass_regrow_ticks ≤ 400 ∧
    ∃ q, (grass_run (Wg.munch 1) (fun _ => []) 400).findPatch 1 = some q ∧
      q.grass = 1 :=
  ⟨rfl, fun n => List.not_mem_nil 1, by rw [grass_regrow_ticks_eq],
    regrowth_idempotent Wg 1 _ (fun _ => []) rfl (fun n => List.not_mem_nil 1)
      400 (by rw [grass_regrow_ticks_eq])⟩

/-! ### Claim C9: males never pregnant, over all reachable states -/

/-- The per-entity invariant: a male animal is never pregnant. -/
def entOK : Ent → Prop
  | .animal a => a.gender = 1 → a.pregs = 0
  | .patch _ => True

/-- Heap well-formedness: keys are unique and bounded by the uid counter,
    and every entity satisfies `entOK`. -/
def HeapOK (l : List (ℕ × Ent)) (lu : ℕ) : Prop :=
  (l.map Prod.fst).Nodup ∧ (∀ e ∈ l, e.1 ≤ lu) ∧ (∀ e ∈ l, entOK e.2)

/-- Well-formedness carried through the whole simulation. -/
def WorldOK (w : World) : Prop := HeapOK w.ents w.last_uid

lemma heapOK_append (l : List (ℕ × Ent)) (lu : ℕ) (e : Ent)
    (h : HeapOK l lu) (he : entOK e) : HeapOK (l ++ [(lu + 1, e)]) (lu + 1) := by
  obtain ⟨hnd, hle, hent⟩ := h
  refine ⟨?_, ?_, ?_⟩
  · rw [List.map_append]
    refine List.Nodup.append hnd (List.nodup_singleton _) ?_
    intro k hk hk'
    have hk1 : k = lu + 1 := by simpa using hk'
    obtain ⟨e0, he0, he0k⟩ := List.mem_map.mp hk
    have := hle e0 he0
    omega
  · intro x hx
    rcases List.mem_append.mp hx with hx | hx
    · have := hle x hx
      omega
    · have : x.1 = lu + 1 := by
        simpa using congrArg Prod.fst (List.mem_singleton.mp hx)
      omega
  · intro x hx
    rcases List.mem_append.mp hx with hx | hx
    · exact hent x hx
    · rw [List.mem_singleton.mp hx]
      exact he

lemma mem_eq_find? (uid : ℕ) (x : Ent) : ∀ (l : List (ℕ × Ent)),
    (l.map Prod.fst).Nodup → (uid, x) ∈ l →
    (l.find? (fun e => e.1 == uid)).map (fun e => e.2) = some x
  | [], _, hmem => absurd hmem (List.not_mem_nil _)
  | e :: l, hnd, hmem => by
      rcases List.mem_cons.mp hmem with he | hl
      · rw [List.find?_cons_of_pos _ (by rw [← he]; exact beq_self_eq_true uid)]
        rw [← he]
        rfl
      · by_cases hk : e.1 = uid
        · exfalso
          have huid : uid ∈ l.map Prod.fst :=
            List.mem_map.mpr ⟨(uid, x), hl, rfl⟩
          rw [List.map_cons, List.nodup_cons] at hnd
          exact hnd.1 (hk ▸ huid)
        · rw [List.find?_cons_of_neg _ (by simp [hk])]
          rw [List.map_cons, List.nodup_cons] at hnd
          exact mem_eq_find? uid x l hnd.2 hl

lemma mem_eq_findEnt (w : World) (hnd : (w.ents.map Prod.fst).Nodup)
    (uid : ℕ) (x : Ent) (hmem : (uid, x) ∈ w.ents) : w.findEnt uid = some x :=
  mem_eq_find? uid x w.ents hnd hmem

lemma findEnt_mem (w : World) (uid : ℕ) (x : Ent)
    (h : w.findEnt uid = some x) : (uid, x) ∈ w.ents := by
  unfold World.findEnt at h
  rcases hf : w.ents.find? (fun e => e.1 == uid) with _ | e
  · rw [hf] at h
    simp at h
  · rw [hf] at h
    simp only [Option.map_some', Option.some.injEq] at h
    have hp := @List.find?_some _ (fun e => e.1 == uid) e w.ents hf
    have hkey : e.1 = uid := beq_iff_eq.mp hp
    have hmem : e ∈ w.ents := List.mem_of_find?_eq_some hf
    rw [show (uid, x) = e from by rw [← hkey, ← h]]
    exact hmem

lemma findEnt_entOK (w : World) (hOK : WorldOK w) (uid : ℕ) (x : Ent)
    (h : w.findEnt uid = some x) : entOK x :=
  hOK.2.2 (uid, x) (findEnt_mem w uid x h)

lemma findAnimal_findEnt (w : World) (uid : ℕ) (a : Animal)
    (h : w.findAnimal uid = some a) : w.findEnt uid = some (.animal a) := by
  unfold World.findAnimal at h
  rcases he : w.findEnt uid with _ | e
  · rw [he] at h
    exact absurd h (by simp)
  · rw [he] at h
    cases e with
    | patch p => exact absurd h (by simp)
    | animal b =>
        simp only [Option.some.injEq] at h
        exact congrArg some (congrArg Ent.animal h)

lemma findAnimal_entOK (w : World) (hOK : WorldOK w) (uid : ℕ) (a : Animal)
    (h : w.findAnimal uid = some a) : a.gender = 1 → a.pregs = 0 :=
  findEnt_entOK w hOK uid (.animal a) (findAnimal_findEnt w uid a h)

lemma keys_modifyEnt (w : World) (uid : ℕ) (f : Ent → Ent) :
    (w.modifyEnt uid f).ents.map Prod.fst = w.ents.map Prod.fst := by
  unfold World.modifyEnt
  dsimp only
  rw [List.map_map]
  apply List.map_congr_left
  intro e _
  by_cases h : e.1 = uid <;> simp [h]

lemma worldOK_modifyEnt (w : World) (uid : ℕ) (f : Ent → Ent)
    (hOK : WorldOK w)
    (hf : ∀ x : Ent, w.findEnt uid = some x → entOK (f x)) :
    WorldOK (w.modifyEnt uid f) := by
  obtain ⟨hnd, hle, hent⟩ := hOK
  refine ⟨by rw [keys_modifyEnt]; exact hnd, ?_, ?_⟩
  · intro e he
    obtain ⟨e0, he0, hmap⟩ := List.mem_map.mp he
    have : e.1 = e0.1 := by
      rw [← hmap]
      by_cases h : e0.1 = uid <;> simp [h]
    rw [this]
    exact hle e0 he0
  · intro e he
    obtain ⟨e0, he0, hmap⟩ := List.mem_map.mp he
    by_cases h : e0.1 = uid
    · rw [← hmap, if_pos h]
      exact hf e0.2 (mem_eq_findEnt w hnd uid e0.2 (by rw [← h]; exact he0))
    · rw [← hmap, if_neg h]
      exact hent e0 he0

/-- Animal updates that do not create a pregnancy preserve the invariant. -/
lemma worldOK_modifyAnimal_simple (w : World) (uid : ℕ) (f : Animal → Animal)
    (hOK : WorldOK w)
    (hf : ∀ a : Animal, (f a).gender = a.gender ∧
      ((f a).pregs = a.pregs ∨ (f a).pregs = 0)) :
    WorldOK (w.modifyAnimal uid f) := by
  apply worldOK_modifyEnt w uid _ hOK
  intro x hx
  have hxOK : entOK x := findEnt_entOK w hOK uid x hx
  cases x with
  | patch p => exact trivial
  | animal a =>
      intro hg
      obtain ⟨hgen, hpregs⟩ := hf a
      rcases hpregs with hp | hp
      · rw [hp]
        exact hxOK (by rw [← hgen]; exact hg)
      · exact hp

/-- Patch updates always preserve the invariant. -/
lemma worldOK_modifyPatch (w : World) (uid : ℕ) (f : Patch → Patch)
    (hOK : WorldOK w) : WorldOK (w.modifyPatch uid f) := by
  apply worldOK_modifyEnt w uid _ hOK
  intro x hx
  have hxOK : entOK x := findEnt_entOK w hOK uid x hx
  cases x with
  | patch p => exact trivial
  | animal a => exact hxOK

lemma worldOK_kill (w : World) (uid : ℕ) (hOK : WorldOK w) :
    WorldOK (w.kill uid) := by
  unfold World.kill
  rcases h : w.findAnimal uid with _ | a
  · exact worldOK_modifyAnimal_simple _ uid _ hOK
      (fun a => ⟨rfl, Or.inl rfl⟩)
  · dsimp only
    split_ifs <;>
      exact worldOK_modifyAnimal_simple _ uid _ hOK (fun a => ⟨rfl, Or.inl rfl⟩)

lemma worldOK_munch (w : World) (uid : ℕ) (hOK : WorldOK w) :
    WorldOK (w.munch uid) :=
  worldOK_modifyPatch w uid _ hOK

lemma worldOK_regrow (w : World) (uid : ℕ) (hOK : WorldOK w) :
    WorldOK (w.regrow uid) :=
  worldOK_modifyPatch w uid _ hOK

lemma worldOK_foldl {β : Type} (g : World → β → World)
    (hg : ∀ w b, WorldOK w → WorldOK (g w b)) :
    ∀ (l : List β) (w : World), WorldOK w → WorldOK (l.foldl g w)
  | [], _, h => h
  | b :: l, w, h => worldOK_foldl g hg l (g w b) (hg w b h)

lemma worldOK_do_regrow (w : World) (hOK : WorldOK w) :
    WorldOK (do_regrow w) := by
  unfold do_regrow
  split_ifs with h
  · dsimp only
    exact worldOK_foldl _ (fun w b h => worldOK_regrow w b h) _ w hOK
  · exact hOK

lemma worldOK_create_baby (w : World) (x y : ℝ) (age : ℚ) (type : String)
    (gender : ℕ) (max_age : ℚ) (hOK : WorldOK w) :
    WorldOK (w.create_baby x y age type gender max_age) := by
  unfold World.create_baby
  dsimp only
  split_ifs with htype
  · exact heapOK_append w.ents w.last_uid _ hOK (fun hg => rfl)
  · exact heapOK_append w.ents w.last_uid _ hOK (fun hg => rfl)

lemma worldOK_create_patch (w : World) (x y : ℝ) (rocky : Bool)
    (hOK : WorldOK w) : WorldOK (w.create_patch x y rocky) := by
  unfold World.create_patch
  dsimp only
  split_ifs with h <;>
    exact heapOK_append w.ents w.last_uid _ hOK trivial

/-- The world component of a close-interaction outcome. -/
def CloseRes.world : CloseRes → World
  | .ret w _ => w
  | .keep w _ => w

lemma close_interaction_dangling (w : World) (self_uid tuid : ℕ) (self : Animal)
    (ht : self.target = some tuid) (hent : w.findEnt tuid = none) :
    close_interaction w self_uid self = .keep w (some tuid) := by
  unfold close_interaction
  rw [ht]
  dsimp only
  rw [hent]

lemma close_interaction_t_no_pos (w : World) (self_uid tuid : ℕ) (self : Animal)
    (t : Ent) (ht : self.target = some tuid) (hent : w.findEnt tuid = some t)
    (htpos : t.pos = none) :
    close_interaction w self_uid self = .keep w (some tuid) := by
  unfold close_interaction
  rw [ht]
  dsimp only
  rw [hent]
  dsimp only
  rw [htpos]

lemma close_interaction_self_no_pos (w : World) (self_uid tuid : ℕ)
    (self : Animal) (t : Ent) (tpos : ℝ × ℝ)
    (ht : self.target = some tuid) (hent : w.findEnt tuid = some t)
    (htpos : t.pos = some tpos) (hspos : self.pos = none) :
    close_interaction w self_uid self = .keep w (some tuid) := by
  unfold close_interaction
  rw [ht]
  dsimp only
  rw [hent]
  dsimp only
  rw [htpos, hspos]

lemma close_interaction_prey_grass (w : World) (self_uid tuid : ℕ)
    (self : Animal) (p : Patch) (spos tpos : ℝ × ℝ)
    (ht : self.target = some tuid)
    (hent : w.findEnt tuid = some (.patch p))
    (hspos : self.pos = some spos) (htpos : p.pos = some tpos)
    (hdist : get_distance spos tpos < 1/2)
    (hcond : self.type = "Prey" ∧ p.type = "Grass" ∧ self.food < 80 ∧
      p.grass ≥ 1) :
    close_interaction w self_uid self =
      .ret ((w.munch tuid).modifyAnimal self_uid
        (fun a => { a with food := a.food + 10 })) none := by
  unfold close_interaction
  rw [ht]
  dsimp only
  rw [hent]
  dsimp only [Ent.pos]
  rw [htpos, hspos]
  dsimp only
  rw [if_pos hdist]
  rw [if_pos hcond]

lemma close_interaction_drop_patch (w : World) (self_uid tuid : ℕ)
    (self : Animal) (p : Patch) (spos tpos : ℝ × ℝ)
    (ht : self.target = some tuid)
    (hent : w.findEnt tuid = some (.patch p))
    (hspos : self.pos = some spos) (htpos : p.pos = some tpos)
    (hdist : get_distance spos tpos < 1/2)
    (hcond : ¬ (self.type = "Prey" ∧ p.type = "Grass" ∧ self.food < 80 ∧
      p.grass ≥ 1)) :
    close_interaction w self_uid self = .keep w none := by
  unfold close_interaction
  rw [ht]
  dsimp only
  rw [hent]
  dsimp only [Ent.pos]
  rw [htpos, hspos]
  dsimp only
  rw [if_pos hdist]
  rw [if_neg hcond]

lemma close_interaction_drop_animal (w : World) (self_uid tuid : ℕ)
    (self ta : Animal) (spos tpos : ℝ × ℝ)
    (ht : self.target = some tuid)
    (hent : w.findEnt tuid = some (.animal ta))
    (hspos : self.pos = some spos) (htpos : ta.pos = some tpos)
    (hdist : get_distance spos tpos < 1/2)
    (htiger : ¬ (self.type = "Tiger" ∧ ta.type = "Prey" ∧ self.food < 80))
    (hmate : ¬ (self.type = ta.type ∧ can_mate ta)) :
    close_interaction w self_uid self = .keep w none := by
  unfold close_interaction
  rw [ht]
  dsimp only
  rw [hent]
  dsimp only [Ent.pos]
  rw [htpos, hspos]
  dsimp only
  rw [if_pos hdist]
  rw [if_neg htiger, if_neg hmate]

lemma can_mate_gender (a : Animal) (h : can_mate a = true) : a.gender = 0 := by
  unfold can_mate at h
  simp only [Bool.and_eq_true, beq_iff_eq, decide_eq_true_eq] at h
  exact h.1.1.1

lemma worldOK_modifyAnimal_at (w : World) (uid : ℕ) (f : Animal → Animal)
    (hOK : WorldOK w)
    (hf : ∀ a : Animal, w.findAnimal uid = some a →
      (f a).gender = 1 → (f a).pregs = 0) :
    WorldOK (w.modifyAnimal uid f) := by
  apply worldOK_modifyEnt w uid _ hOK
  intro x hx
  cases x with
  | patch p => exact trivial
  | animal a =>
      have ha : w.findAnimal uid = some a := by
        unfold World.findAnimal
        rw [hx]
      exact hf a ha

lemma worldOK_close_world (w : World) (self_uid : ℕ) (self : Animal)
    (hOK : WorldOK w) : WorldOK (close_interaction w self_uid self).world := by
  rcases htg : self.target with _ | tuid
  · rw [close_interaction_no_target w self_uid self htg]
    exact hOK
  rcases hent : w.findEnt tuid with _ | t
  · rw [close_interaction_dangling w self_uid tuid self htg hent]
    exact hOK
  rcases htpos : t.pos with _ | tpos
  · rw [close_interaction_t_no_pos w self_uid tuid self t htg hent htpos]
    exact hOK
  rcases hspos : self.pos with _ | spos
  · rw [close_interaction_self_no_pos w self_uid tuid self t tpos htg hent htpos
      hspos]
    exact hOK
  by_cases hdist : get_distance spos tpos < 1/2
  case neg =>
    rw [close_interaction_far w self_uid tuid self t spos tpos htg hent hspos
      htpos hdist]
    exact hOK
  rcases t with p | ta
  · by_cases hcond : self.type = "Prey" ∧ p.type = "Grass" ∧ self.food < 80 ∧
        p.grass ≥ 1
    · rw [close_interaction_prey_grass w self_uid tuid self p spos tpos htg hent
        hspos htpos hdist hcond]
      exact worldOK_modifyAnimal_simple _ _ _
        (worldOK_munch w tuid hOK) (fun a => ⟨rfl, Or.inl rfl⟩)
    · rw [close_interaction_drop_patch w self_uid tuid self p spos tpos htg hent
        hspos htpos hdist hcond]
      exact hOK
  · by_cases htiger : self.type = "Tiger" ∧ ta.type = "Prey" ∧ self.food < 80
    · rw [close_interaction_tiger_eats w self_uid tuid self ta spos tpos htg
        hent hspos htpos hdist htiger.1 htiger.2.1 htiger.2.2]
      exact worldOK_modifyAnimal_simple _ _ _
        (worldOK_modifyAnimal_simple _ _ _ hOK (fun a => ⟨rfl, Or.inl rfl⟩))
        (fun a => ⟨rfl, Or.inl rfl⟩)
    · by_cases hmate : self.type = ta.type ∧ can_mate ta
      · rw [close_interaction_mate w self_uid tuid self ta spos tpos htg hent
          hspos htpos hdist htiger hmate]
        refine worldOK_modifyAnimal_at w tuid _ hOK ?_
        intro a ha hg
        exfalso
        have hta : a = ta := by
          have := findAnimal_findEnt w tuid a ha
          rw [hent] at this
          cases this
          rfl
        rw [hta] at hg
        rw [can_mate_gender ta hmate.2] at hg
        exact absurd hg (by decide)
      · rw [close_interaction_drop_animal w self_uid tuid self ta spos tpos htg
          hent hspos htpos hdist htiger hmate]
        exact hOK

lemma worldOK_get_target (w : World) (uid : ℕ) (cm fc : List ℕ)
    (hOK : WorldOK w) : WorldOK (get_target w uid cm fc).1 := by
  unfold get_target
  rcases hself : w.findAnimal uid with _ | self
  · exact hOK
  dsimp only
  rcases hci : close_interaction w uid self with ⟨w1, r⟩ | ⟨w1, t⟩
  · have h1 : WorldOK w1 := by
      have hcw := worldOK_close_world w uid self hOK
      rw [hci] at hcw
      exact hcw
    exact h1
  · have h1 : WorldOK w1 := by
      have hcw := worldOK_close_world w uid self hOK
      rw [hci] at hcw
      exact hcw
    rcases t with _ | t0
    · dsimp only
      rcases (if self.food < 80 then
          (if self.type = "Prey" then find_grass w1 fc else find_prey w1 fc)
        else none) with _ | u
      · dsimp only
        rcases (if self.gender = 1 then find_mate w1 self.type cm
            else none) with _ | u2
        · exact h1
        · exact h1
      · exact h1
    · exact h1

lemma worldOK_births (w : World) (uid : ℕ) (r : ARand) (hOK : WorldOK w) :
    WorldOK (births w uid r) := by
  unfold births
  rcases w.findAnimal uid with _ | m
  · exact hOK
  dsimp only
  rcases m.pos with _ | p
  · exact hOK
  dsimp only
  exact worldOK_foldl _
    (fun w i h => worldOK_create_baby w p.1 p.2 0 m.type (r.genders i)
      (r.max_ages i) h) _ w hOK

/-- A fallible step result is well-formed when every world it can complete
    to is. -/
def OWorldOK (ow : Option World) : Prop := ∀ w, ow = some w → WorldOK w

lemma oworldOK_some (w : World) (h : WorldOK w) : OWorldOK (some w) := by
  intro w0 hw
  injection hw with hw
  exact hw ▸ h

lemma oworldOK_none : OWorldOK none := by
  intro w0 hw
  exact absurd hw (by simp)

lemma worldOK_move_phase (w : World) (uid : ℕ) (cm fc : List ℕ)
    (hOK : WorldOK w) : OWorldOK (move_phase w uid cm fc) := by
  unfold move_phase
  rcases hgt : get_target w uid cm fc with ⟨w4, tgt⟩
  have h4 : WorldOK w4 := by
    have hg := worldOK_get_target w uid cm fc hOK
    rw [hgt] at hg
    exact hg
  dsimp only
  have h5 : WorldOK (w4.modifyAnimal uid (fun a => { a with target := tgt })) :=
    worldOK_modifyAnimal_simple _ uid _ h4 (fun a => ⟨rfl, Or.inl rfl⟩)
  rcases tgt with _ | tuid
  · exact oworldOK_some _ h5
  dsimp only
  rcases (w4.modifyAnimal uid
      (fun a => { a with target := some tuid })).findEnt tuid with _ | t
  · exact oworldOK_some _
      (worldOK_modifyAnimal_simple _ uid _ h5 (fun a => ⟨rfl, Or.inl rfl⟩))
  dsimp only
  rcases t.pos with _ | tpos
  · exact oworldOK_some _
      (worldOK_modifyAnimal_simple _ uid _ h5 (fun a => ⟨rfl, Or.inl rfl⟩))
  dsimp only
  rcases (w4.modifyAnimal uid
      (fun a => { a with target := some tuid })).findAnimal uid with _ | a3
  · exact oworldOK_some _ h5
  dsimp only
  rcases a3.pos with _ | spos
  · exact oworldOK_some _ h5
  dsimp only
  split_ifs with hoob
  · exact oworldOK_none
  · exact oworldOK_some _
      (worldOK_modifyAnimal_simple _ uid _ h5 (fun a => ⟨rfl, Or.inl rfl⟩))

lemma worldOK_speed_move (w : World) (uid : ℕ) (cm fc : List ℕ)
    (hOK : WorldOK w) :
    OWorldOK (move_phase (w.modifyAnimal uid Animal.set_speed) uid cm fc) :=
  worldOK_move_phase _ uid cm fc
    (worldOK_modifyAnimal_simple _ uid _ hOK (fun a => ⟨rfl, Or.inl rfl⟩))

lemma worldOK_animal_step (w : World) (uid : ℕ) (r : ARand)
    (hOK : WorldOK w) : OWorldOK (animal_step w uid r) := by
  unfold animal_step
  rcases h0 : w.findAnimal uid with _ | a0
  · exact oworldOK_some _ hOK
  dsimp only
  split_ifs with halive
  rotate_left
  · exact oworldOK_some _ (worldOK_kill w uid hOK)
  have h1 : WorldOK (w.modifyAnimal uid (fun a =>
      { a with food := a.food - FOOD_PER_TICK, age := a.age + AGE_T })) :=
    worldOK_modifyAnimal_simple _ uid _ hOK (fun a => ⟨rfl, Or.inl rfl⟩)
  rcases ha1 : (w.modifyAnimal uid (fun a =>
      { a with food := a.food - FOOD_PER_TICK,
               age := a.age + AGE_T })).findAnimal uid with _ | a1
  · exact oworldOK_some _ h1
  dsimp only
  set w1 := w.modifyAnimal uid (fun a =>
    { a with food := a.food - FOOD_PER_TICK, age := a.age + AGE_T }) with hw1
  split_ifs with hfood hage hpregs hstep hstep
  · exact oworldOK_some _ (worldOK_kill _ uid h1)
  · exact oworldOK_some _ (worldOK_kill _ uid h1)
  · have h2 : WorldOK (w1.modifyAnimal uid (fun a =>
        { a with food := a.food - FOOD_PER_TICK / 3,
                 pregs := a.pregs + AGE_T })) := by
      apply worldOK_modifyAnimal_at _ uid _ h1
      intro a ha hg
      rw [ha1] at ha
      injection ha with ha
      subst ha
      exact (hpregs (findAnimal_entOK _ h1 uid _ ha1 hg)).elim
    rcases ha2 : (w1.modifyAnimal uid (fun a =>
        { a with food := a.food - FOOD_PER_TICK / 3,
                 pregs := a.pregs + AGE_T })).findAnimal uid with _ | a2
    · dsimp only
      exact worldOK_speed_move _ uid _ _ h2
    · dsimp only
      split_ifs with hb
      · exact worldOK_speed_move _ uid _ _
          (worldOK_births _ uid r
            (worldOK_modifyAnimal_simple _ uid _ h2 (fun a => ⟨rfl, Or.inr rfl⟩)))
      · exact worldOK_speed_move _ uid _ _ h2
  · have h2 : WorldOK (w1.modifyAnimal uid (fun a =>
        { a with food := a.food - FOOD_PER_TICK / 3,
                 pregs := a.pregs + AGE_T })) := by
      apply worldOK_modifyAnimal_at _ uid _ h1
      intro a ha hg
      rw [ha1] at ha
      injection ha with ha
      subst ha
      exact (hpregs (findAnimal_entOK _ h1 uid _ ha1 hg)).elim
    rcases ha2 : (w1.modifyAnimal uid (fun a =>
        { a with food := a.food - FOOD_PER_TICK / 3,
                 pregs := a.pregs + AGE_T })).findAnimal uid with _ | a2
    · dsimp only
      exact worldOK_move_phase _ uid _ _ h2
    · dsimp only
      split_ifs with hb
      · exact worldOK_move_phase _ uid _ _
          (worldOK_births _ uid r
            (worldOK_modifyAnimal_simple _ uid _ h2 (fun a => ⟨rfl, Or.inr rfl⟩)))
      · exact worldOK_move_phase _ uid _ _ h2
  · exact worldOK_speed_move _ uid _ _ h1
  · exact worldOK_move_phase _ uid _ _ h1

lemma oworldOK_foldl {β : Type} (g : Option World → β → Option World)
    (hg : ∀ ow b, OWorldOK ow → OWorldOK (g ow b)) :
    ∀ (l : List β) (ow : Option World), OWorldOK ow → OWorldOK (l.foldl g ow)
  | [], _, h => h
  | b :: l, ow, h => oworldOK_foldl g hg l (g ow b) (hg ow b h)

lemma worldOK_model_step (w : World) (order : List ℕ) (rands : ℕ → ARand)
    (hOK : WorldOK w) : OWorldOK (model_step w order rands) := by
  unfold model_step
  dsimp only
  refine oworldOK_foldl _ ?_ order _
    (oworldOK_some _ (worldOK_do_regrow _ hOK))
  intro ow b h
  rcases ow with _ | w0
  · exact oworldOK_none
  dsimp only
  split_ifs with hb
  · exact worldOK_animal_step w0 b _ (h w0 rfl)
  · exact oworldOK_some _ (h w0 rfl)

lemma worldOK_empty : WorldOK empty_world := by
  refine ⟨List.nodup_nil, ?_, ?_⟩ <;> intro e he <;>
    exact absurd he (List.not_mem_nil e)

lemma worldOK_init (Prey_count Tiger_count width height : ℕ)
    (rocky : ℕ → Bool) (ppos : ℕ → ℝ × ℝ) (page : ℕ → ℚ) (pgender : ℕ → ℕ)
    (pmax : ℕ → ℚ) (tpos : ℕ → ℝ × ℝ) (tage : ℕ → ℚ) (tgender : ℕ → ℕ)
    (tmax : ℕ → ℚ) :
    WorldOK (Prey_model_init Prey_count Tiger_count width height rocky
      ppos page pgender pmax tpos tage tgender tmax) := by
  unfold Prey_model_init
  dsimp only
  refine worldOK_foldl _ ?_ _ _
    (worldOK_foldl _ ?_ _ _ (worldOK_foldl _ ?_ _ _ worldOK_empty))
  · intro w i h
    exact worldOK_create_baby w _ _ _ _ _ _ h
  · intro w i h
    exact worldOK_create_baby w _ _ _ _ _ _ h
  · intro w c h
    exact worldOK_create_patch w _ _ _ h

/-- The reachable model states: any freshly initialised model, and whatever
    one whole model step (under any activation order and random draws)
    produces from a reachable state. -/
inductive Reachable : World → Prop
  | init (Prey_count Tiger_count width height : ℕ) (rocky : ℕ → Bool)
      (ppos : ℕ → ℝ × ℝ) (page : ℕ → ℚ) (pgender : ℕ → ℕ) (pmax : ℕ → ℚ)
      (tpos : ℕ → ℝ × ℝ) (tage : ℕ → ℚ) (tgender : ℕ → ℕ) (tmax : ℕ → ℚ) :
      Reachable (Prey_model_init Prey_count Tiger_count width height rocky
        ppos page pgender pmax tpos tage tgender tmax)
  | step (w w2 : World) (order : List ℕ) (rands : ℕ → ARand) :
      Reachable w → model_step w order rands = some w2 → Reachable w2

lemma worldOK_reachable (w : World) (h : Reachable w) : WorldOK w := by
  induction h with
  | init pc tc wd ht rocky ppos page pgender pmax tpos tage tgender tmax =>
      exact worldOK_init pc tc wd ht rocky ppos page pgender pmax tpos tage
        tgender tmax
  | step w w2 order rands hw hms ih =>
      exact worldOK_model_step w order rands ih w2 hms

/-- C9: in every reachable model state, every animal whose gender is male
    (gender = 1) has pregnancy 0: pregnancies are only ever created on
    animals that pass can_mate (which requires gender = 0), and every other
    write preserves or clears the field. -/
theorem males_never_pregnant (w : World) (hw : Reachable w) (uid : ℕ)
    (a : Animal) (ha : w.findAnimal uid = some a) (hg : a.gender = 1) :
    a.pregs = 0 :=
  findAnimal_entOK w (worldOK_reachable w hw) uid a ha hg

/-- A freshly initialised one-prey world whose single animal is male. -/
noncomputable def W9 : World :=
  Prey_model_init 1 0 0 0 (fun _ => false) (fun _ => ((0 : ℝ), (0 : ℝ)))
    (fun _ => 1) (fun _ => 1) (fun _ => 9) (fun _ => ((0 : ℝ), (0 : ℝ)))
    (fun _ => 1) (fun _ => 1) (fun _ => 9)

theorem males_never_pregnant_witness :
    ∃ a : Animal, W9.findAnimal 1 = some a ∧ a.gender = 1 ∧ a.pregs = 0 := by
  refine ⟨{ Prey_init 1 1 9 with pos := some ((0 : ℝ), (0 : ℝ)) }, rfl, rfl, ?_⟩
  exact males_never_pregnant W9
    (Reachable.init 1 0 0 0 (fun _ => false) (fun _ => ((0 : ℝ), (0 : ℝ)))
      (fun _ => 1) (fun _ => 1) (fun _ => 9) (fun _ => ((0 : ℝ), (0 : ℝ)))
      (fun _ => 1) (fun _ => 1) (fun _ => 9)) 1 _ rfl rfl

theorem tiger_predation_effects_witness :
    (get_target W3 1 [] []).2 = none ∧
    (get_target W3 1 [] []).1.findAnimal 1 =
      some { C3tiger with food := C3tiger.food + (40 + C3prey.food / 4) } ∧
    (get_target W3 1 [] []).1.findAnimal 2 =
      some { C3prey with alive := false } := by
  obtain ⟨h1, h2, h3, -, -, -⟩ := tiger_predation_effects W3 1 2 [] []
    C3tiger C3prey (0, 0) (0, 0) rfl rfl rfl rfl rfl
    (by norm_num [get_distance]) rfl rfl (by norm_num [C3tiger]) (by decide)
  exact ⟨h1, h2, h3⟩

theorem mating_keeps_target_witness :
    (get_target W5 1 [] []).2 = some 2 ∧
    (get_target W5 1 [] []).1.findAnimal 2 =
      some { C5female with pregs := 1/10 } ∧
    (get_target W5 1 [] []).1.findAnimal 1 = some C5male :=
  mating_keeps_target W5 1 2 [] [] C5male C5female (0, 0) (0, 0)
    rfl rfl rfl rfl rfl (by norm_num [get_distance]) (by decide) ⟨rfl, rfl⟩
    (by decide)

end Savannah
